import Mathlib

/-!
Verification of the clickhouse-admin governance/executor core: a shallow
embedding of the SQL template builders (executor `templates.py` / governance
`sql_generator.py`), the executor job pipeline (`executor.py`), the RBAC graph
resolver (`rbac_graph.py`), the cluster PATCH route (`cluster_routes.py`),
multi-operation proposal creation (`proposal_routes.py`) and the snapshot diff
(`snapshot_diff.py`), with theorems settling the specification claims.
-/

/-- A Python/JSON-style dynamic value, as held in an operation `params` dict. -/
inductive PVal where
  | str (s : String)
  | int (n : Int)
  | bool (b : Bool)
  | list (xs : List PVal)
  | dict (entries : List (String × PVal))
  | none

/-- A params mapping (`dict[str, Any]`), with at most one entry per key. -/
abbrev Params := List (String × PVal)

/-- The kinds of Python exception that the embedded code can raise.
`templateError` is the executor's `TemplateError`; `valueError`, `keyError` and
`typeError` are the corresponding builtin exceptions. -/
inductive PyErr where
  | templateError (msg : String)
  | valueError (msg : String)
  | keyError (key : String)
  | typeError (msg : String)
deriving DecidableEq

deriving instance DecidableEq for Except

/-- The ASCII apostrophe character. -/
def sqCh : Char := Char.ofNat 39

/-- The backslash character. -/
def bslCh : Char := Char.ofNat 92

/-!  Character-list implementations of the string operations the embedding
needs; these compute by structural recursion, unlike some of the corresponding
`String` library functions. -/

/-- `s.startswith(p)`. -/
def strStartsWith (s p : String) : Bool := p.data.isPrefixOf s.data

/-- `s[n:]`. -/
def strDrop (s : String) (n : Nat) : String := String.mk (s.data.drop n)

/-- `s[:n]`. -/
def strTake (s : String) (n : Nat) : String := String.mk (s.data.take n)

/-- ASCII whitespace, as stripped by `str.strip()`. -/
def isPySpace (c : Char) : Bool := c = ' ' || c = '\n' || c = '\t' || c = '\r'

/-- `s.strip()`. -/
def pyStrip (s : String) : String :=
  String.mk (((s.data.dropWhile isPySpace).reverse.dropWhile isPySpace).reverse)

/-- `s.upper()` (ASCII). -/
def pyUpper (s : String) : String := String.mk (s.data.map Char.toUpper)

/-- `s.lower()` (ASCII). -/
def pyLower (s : String) : String := String.mk (s.data.map Char.toLower)

/-- Decimal digits to a number, if all characters are digits. -/
def parseNatChars : List Char → Option Nat
  | [] => Option.none
  | ds =>
      if ds.all Char.isDigit then
        some (ds.foldl (fun acc c => acc * 10 + (c.toNat - 48)) 0)
      else Option.none

/-- `int(s)` on an already-stripped string. -/
def pyParseInt (s : String) : Option Int :=
  match s.data with
  | '-' :: ds => (parseNatChars ds).map (fun n => -(n : Int))
  | '+' :: ds => (parseNatChars ds).map (fun n => (n : Int))
  | ds => (parseNatChars ds).map (fun n => (n : Int))

/-- Python truthiness of a value. -/
def pyFalsyV : PVal → Bool
  | .str s => s = ""
  | .int n => n = 0
  | .bool b => !b
  | .list xs => xs.isEmpty
  | .dict es => es.isEmpty
  | .none => true

/-- `dict.get`: first binding for a key, if any. -/
def pget (ps : Params) (k : String) : Option PVal :=
  (ps.find? (fun kv => kv.1 = k)).map (·.2)

/-- `params[k]`: raises `KeyError` when the key is absent. -/
def pitem (ps : Params) (k : String) : Except PyErr PVal :=
  match pget ps k with
  | some v => .ok v
  | Option.none => .error (.keyError k)

/-- `repr` of a string (quote choice and escapes as in CPython, restricted to
the escapes exercised here). -/
def pyReprStr (s : String) : String :=
  let hasSingle := s.data.contains sqCh
  let hasDouble := s.data.contains '"'
  let q : Char := if hasSingle && !hasDouble then '"' else sqCh
  let esc := s.data.flatMap (fun c =>
    if c = bslCh then [bslCh, bslCh]
    else if c = q then [bslCh, c]
    else if c = '\n' then [bslCh, 'n']
    else if c = '\t' then [bslCh, 't']
    else [c])
  String.mk (q :: esc ++ [q])

/-- `repr` of a value. -/
def pyReprV : PVal → String
  | .str s => pyReprStr s
  | .int n => toString n
  | .bool b => if b then "True" else "False"
  | .none => "None"
  | .list xs =>
      "[" ++ String.intercalate ", " (xs.attach.map (fun v => pyReprV v.1)) ++ "]"
  | .dict es =>
      "\x7b" ++ String.intercalate ", "
        (es.attach.map (fun kv => pyReprStr kv.1.1 ++ ": " ++ pyReprV kv.1.2)) ++ "\x7d"
decreasing_by
  · have := List.sizeOf_lt_of_mem v.2
    simp only [PVal.list.sizeOf_spec]
    omega
  · have h1 := List.sizeOf_lt_of_mem kv.2
    have h2 : sizeOf kv.1.2 < sizeOf kv.1 := by
      cases kv.1 with
      | mk a b => simp only [Prod.mk.sizeOf_spec]; omega
    simp only [PVal.dict.sizeOf_spec]
    omega

/-- `str` of a value. -/
def pyStrV : PVal → String
  | .str s => s
  | v => pyReprV v

/-- Python iteration over a value (`for x in v`). -/
def pyIter : PVal → Except PyErr (List PVal)
  | .list xs => .ok xs
  | .str s => .ok (s.data.map fun c => .str (String.mk [c]))
  | .dict es => .ok (es.map fun kv => .str kv.1)
  | _ => .error (.typeError "object is not iterable")

/-- `params.get(k) or []` followed by iteration. -/
def pgetOrEmptyList (ps : Params) (k : String) : Except PyErr (List PVal) :=
  match pget ps k with
  | Option.none => .ok []
  | some v => if pyFalsyV v then .ok [] else pyIter v

/-- `int(v)` for the value shapes that occur in params. -/
def pyInt : PVal → Except PyErr Int
  | .int n => .ok n
  | .bool b => .ok (if b then 1 else 0)
  | .str s =>
      match pyParseInt (pyStrip s) with
      | some n => .ok n
      | Option.none =>
          .error (.valueError ("invalid literal for int() with base 10: " ++ pyReprStr s))
  | _ => .error (.typeError "int() argument must be a string or a number")

namespace Safety

/-!  Embedding of `apps/executor-service/app/safety.py`. -/

/-- First character of `^[a-zA-Z_][a-zA-Z0-9_]{0,63}$`. -/
def identFirst (c : Char) : Bool := c.isAlpha || c = '_'

/-- Later characters of the identifier regex. -/
def identRest (c : Char) : Bool := c.isAlphanum || c = '_'

/-- `re.match` with a `$` anchor also matches when a single newline trails. -/
def stripOneTrailingNewline (s : String) : String :=
  if s.data.getLast? = some '\n' then String.mk s.data.dropLast else s

/-- `validate_identifier`: `bool(_SAFE_IDENT.match(name))` for
`^[a-zA-Z_][a-zA-Z0-9_]{0,63}$`. -/
def validate_identifier (name : String) : Bool :=
  match (stripOneTrailingNewline name).data with
  | [] => false
  | c :: cs => identFirst c && decide (cs.length ≤ 63) && cs.all identRest

/-- `quote_identifier`: backtick-quote a valid identifier, otherwise raise
`ValueError` (note: not `TemplateError`). -/
def quote_identifier (name : String) : Except PyErr String :=
  if name = "" || !validate_identifier name then
    .error (.valueError ("Invalid identifier: " ++ pyReprStr name))
  else
    .ok ("`" ++ name ++ "`")

/-- `quote_identifier` applied to a dynamic value: falsy values hit the
`not name` branch, non-strings make `re.match` raise `TypeError`. -/
def quoteIdentV : PVal → Except PyErr String
  | .str s => quote_identifier s
  | v =>
      if pyFalsyV v then .error (.valueError ("Invalid identifier: " ++ pyReprV v))
      else .error (.typeError "expected string or bytes-like object")

/-- `escape_string`: double backslashes, then escape single quotes (the two
sequential `replace` calls amount to this single pass). -/
def escape_string (value : String) : String :=
  String.mk (value.data.flatMap (fun c =>
    if c = bslCh then [bslCh, bslCh]
    else if c = sqCh then [bslCh, sqCh]
    else [c]))

/-- `escape_string` on a dynamic value (`.replace` on a non-string raises). -/
def escapeStringV : PVal → Except PyErr String
  | .str s => .ok (escape_string s)
  | _ => .error (.typeError "replace expects str")

/-- `quote_scope(database, table)` over the dynamic values from
`params.get`. -/
def quote_scope (database table : Option PVal) : Except PyErr String :=
  let dbFalsyOrStar :=
    match database with
    | Option.none => true
    | some v => pyFalsyV v || (match v with | .str s => s = "*" | _ => false)
  if dbFalsyOrStar then .ok "*.*"
  else do
    let db ← quoteIdentV (database.getD PVal.none)
    let tblFalsyOrStar :=
      match table with
      | Option.none => true
      | some v => pyFalsyV v || (match v with | .str s => s = "*" | _ => false)
    if tblFalsyOrStar then .ok (db ++ ".*")
    else do
      let t ← quoteIdentV (table.getD PVal.none)
      .ok (db ++ "." ++ t)

/-- `ALLOWED_PRIVILEGES`. -/
def ALLOWED_PRIVILEGES : List String :=
  ["SELECT", "INSERT", "ALTER", "CREATE", "DROP",
   "SHOW", "SHOW DATABASES", "SHOW TABLES", "SHOW COLUMNS",
   "CREATE TABLE", "CREATE VIEW", "CREATE DICTIONARY",
   "CREATE TEMPORARY TABLE", "CREATE FUNCTION",
   "ALTER TABLE", "ALTER VIEW",
   "TRUNCATE", "OPTIMIZE", "KILL QUERY",
   "dictGet", "INTROSPECTION",
   "SYSTEM", "SOURCES", "CLUSTER"]

/-- `validate_privilege`. -/
def validate_privilege (priv : String) : Bool :=
  (ALLOWED_PRIVILEGES.map pyUpper).contains (pyUpper priv)

/-- `VALID_INTERVALS`. -/
def VALID_INTERVALS : List String :=
  ["1 second", "1 minute", "5 minutes", "15 minutes",
   "1 hour", "1 day", "1 week", "1 month", "1 quarter", "1 year"]

/-- `validate_interval`. -/
def validate_interval (interval : String) : Bool :=
  (VALID_INTERVALS.map pyLower).contains (pyLower interval)

/-- `validate_interval` on a dynamic value (`.lower()` needs a string). -/
def validateIntervalV : PVal → Except PyErr Bool
  | .str s => .ok (validate_interval s)
  | _ => .error (.typeError "lower expects str")

end Safety

namespace Templates

/-!  Embedding of `apps/executor-service/app/templates.py`.  Each builder
returns `(forward_sql, compensation_sql | none)` or raises. -/

open Safety

/-- `.upper()` on a dynamic value. -/
def upperV : PVal → Except PyErr String
  | .str s => .ok (pyUpper s)
  | _ => .error (.typeError "upper expects str")

/-- `_require(params, *keys)`. -/
def require (params : Params) : List String → Except PyErr Unit
  | [] => .ok ()
  | k :: ks =>
      match pget params k with
      | Option.none => .error (.templateError ("Missing required parameter: " ++ k))
      | some PVal.none => .error (.templateError ("Missing required parameter: " ++ k))
      | some (.str s) =>
          if s = "" then .error (.templateError ("Missing required parameter: " ++ k))
          else require params ks
      | some _ => require params ks

/-- `create_user`. -/
def create_user (params : Params) : Except PyErr (String × Option String) := do
  require params ["username", "password"]
  let user ← quoteIdentV (← pitem params "username")
  let pwd ← escapeStringV (← pitem params "password")
  let sql := "CREATE USER " ++ user ++ " IDENTIFIED WITH sha256_password BY '" ++ pwd ++ "'"
  let hostIps ← pgetOrEmptyList params "host_ip"
  let sql ← do
    if hostIps.isEmpty then pure sql
    else do
      let hs ← hostIps.mapM escapeStringV
      pure (sql ++ " HOST IP " ++ String.intercalate ", " (hs.map (fun h => "'" ++ h ++ "'")))
  let defaultRoles ← pgetOrEmptyList params "default_roles"
  let sql ← do
    if defaultRoles.isEmpty then pure sql
    else do
      let rs ← defaultRoles.mapM quoteIdentV
      pure (sql ++ " DEFAULT ROLE " ++ String.intercalate ", " rs)
  let comp := "DROP USER IF EXISTS " ++ user
  return (sql, some comp)

/-- `alter_user_password`. -/
def alter_user_password (params : Params) : Except PyErr (String × Option String) := do
  require params ["username", "password"]
  let user ← quoteIdentV (← pitem params "username")
  let pwd ← escapeStringV (← pitem params "password")
  let sql := "ALTER USER " ++ user ++ " IDENTIFIED WITH sha256_password BY '" ++ pwd ++ "'"
  return (sql, Option.none)

/-- `drop_user`. -/
def drop_user (params : Params) : Except PyErr (String × Option String) := do
  require params ["username"]
  let user ← quoteIdentV (← pitem params "username")
  return ("DROP USER IF EXISTS " ++ user, Option.none)

/-- `create_role`. -/
def create_role (params : Params) : Except PyErr (String × Option String) := do
  require params ["role_name"]
  let role ← quoteIdentV (← pitem params "role_name")
  return ("CREATE ROLE " ++ role, some ("DROP ROLE IF EXISTS " ++ role))

/-- `drop_role`. -/
def drop_role (params : Params) : Except PyErr (String × Option String) := do
  require params ["role_name"]
  let role ← quoteIdentV (← pitem params "role_name")
  return ("DROP ROLE IF EXISTS " ++ role, Option.none)

/-- `grant_role`. -/
def grant_role (params : Params) : Except PyErr (String × Option String) := do
  require params ["role_name", "target_type", "target_name"]
  let role ← quoteIdentV (← pitem params "role_name")
  let target ← quoteIdentV (← pitem params "target_name")
  return ("GRANT " ++ role ++ " TO " ++ target,
          some ("REVOKE " ++ role ++ " FROM " ++ target))

/-- `revoke_role`. -/
def revoke_role (params : Params) : Except PyErr (String × Option String) := do
  require params ["role_name", "target_type", "target_name"]
  let role ← quoteIdentV (← pitem params "role_name")
  let target ← quoteIdentV (← pitem params "target_name")
  return ("REVOKE " ++ role ++ " FROM " ++ target,
          some ("GRANT " ++ role ++ " TO " ++ target))

/-- `set_default_roles`: every non-list value other than `"ALL"` falls through
to `NONE`. -/
def set_default_roles (params : Params) : Except PyErr (String × Option String) := do
  require params ["username", "roles"]
  let user ← quoteIdentV (← pitem params "username")
  let roles ← pitem params "roles"
  let rolesStr ← (do
    match roles with
    | .list rs =>
        if rs.isEmpty then pure "NONE"
        else do
          let qs ← rs.mapM quoteIdentV
          pure (String.intercalate ", " qs)
    | .str s => if s = "ALL" then pure "ALL" else pure "NONE"
    | _ => pure "NONE")
  return ("SET DEFAULT ROLE " ++ rolesStr ++ " TO " ++ user, Option.none)

/-- `grant_privilege`. -/
def grant_privilege (params : Params) : Except PyErr (String × Option String) := do
  require params ["privilege", "target_type", "target_name"]
  let priv ← upperV (← pitem params "privilege")
  if !validate_privilege priv then
    throw (.templateError ("Privilege not in allow-list: " ++ priv))
  let scope ← quote_scope (pget params "database") (pget params "table")
  let target ← quoteIdentV (← pitem params "target_name")
  return ("GRANT " ++ priv ++ " ON " ++ scope ++ " TO " ++ target,
          some ("REVOKE " ++ priv ++ " ON " ++ scope ++ " FROM " ++ target))

/-- `revoke_privilege`. -/
def revoke_privilege (params : Params) : Except PyErr (String × Option String) := do
  require params ["privilege", "target_type", "target_name"]
  let priv ← upperV (← pitem params "privilege")
  if !validate_privilege priv then
    throw (.templateError ("Privilege not in allow-list: " ++ priv))
  let scope ← quote_scope (pget params "database") (pget params "table")
  let target ← quoteIdentV (← pitem params "target_name")
  return ("REVOKE " ++ priv ++ " ON " ++ scope ++ " FROM " ++ target,
          some ("GRANT " ++ priv ++ " ON " ++ scope ++ " TO " ++ target))

/-- `_settings_clause` (booleans are `int` instances in Python and render via
the numeric branch as `True`/`False`). -/
def settingsClause (settings : PVal) : Except PyErr String := do
  match settings with
  | .dict es => do
      let parts ← es.mapM (fun kv => do
        if !validate_identifier kv.1 then
          throw (.templateError ("Invalid setting name: " ++ pyReprStr kv.1))
        match kv.2 with
        | .int n => pure (kv.1 ++ " = " ++ toString n)
        | .bool b => pure (kv.1 ++ " = " ++ (if b then "True" else "False"))
        | v => pure (kv.1 ++ " = '" ++ escape_string (pyStrV v) ++ "'"))
      return String.intercalate ", " parts
  | _ => throw (.typeError "items expects dict")

/-- `create_settings_profile`. -/
def create_settings_profile (params : Params) : Except PyErr (String × Option String) := do
  require params ["name", "settings"]
  let name ← quoteIdentV (← pitem params "name")
  let clause ← settingsClause (← pitem params "settings")
  return ("CREATE SETTINGS PROFILE " ++ name ++ " SETTINGS " ++ clause,
          some ("DROP SETTINGS PROFILE IF EXISTS " ++ name))

/-- `alter_settings_profile`. -/
def alter_settings_profile (params : Params) : Except PyErr (String × Option String) := do
  require params ["name", "settings"]
  let name ← quoteIdentV (← pitem params "name")
  let clause ← settingsClause (← pitem params "settings")
  return ("ALTER SETTINGS PROFILE " ++ name ++ " SETTINGS " ++ clause, Option.none)

/-- `drop_settings_profile`. -/
def drop_settings_profile (params : Params) : Except PyErr (String × Option String) := do
  require params ["name"]
  let name ← quoteIdentV (← pitem params "name")
  return ("DROP SETTINGS PROFILE IF EXISTS " ++ name, Option.none)

/-- `assign_settings_profile`. -/
def assign_settings_profile (params : Params) : Except PyErr (String × Option String) := do
  require params ["target_name", "profile_name"]
  let target ← quoteIdentV (← pitem params "target_name")
  let profile ← quoteIdentV (← pitem params "profile_name")
  return ("ALTER USER " ++ target ++ " SETTINGS PROFILE " ++ profile, Option.none)

/-- `dict.get` inside an interval entry. -/
def dGet (es : List (String × PVal)) (k : String) (dflt : PVal) : PVal :=
  ((es.find? (fun kv => kv.1 = k)).map (·.2)).getD dflt

/-- `_quota_clause`. -/
def quotaClause (intervals : PVal) : Except PyErr String := do
  match intervals with
  | .list ivs => do
      let parts ← ivs.mapM (fun iv => do
        match iv with
        | .dict es => do
            let dur ← (do
              match dGet es "duration" (.str "1 hour") with
              | .str s => pure s
              | _ => throw (.typeError "lower expects str"))
            if !validate_interval dur then
              throw (.templateError ("Invalid quota interval: " ++ pyReprStr dur))
            let limits ← (do
              match dGet es "limits" (.dict []) with
              | .dict ls => pure ls
              | _ => throw (.typeError "items expects dict"))
            let limitParts ← limits.mapM (fun kv => do
              if !validate_identifier kv.1 then
                throw (.templateError ("Invalid quota limit name: " ++ pyReprStr kv.1))
              let n ← pyInt kv.2
              pure (kv.1 ++ " = " ++ toString n))
            pure ("FOR INTERVAL " ++ dur ++ " MAX " ++ String.intercalate ", " limitParts)
        | _ => throw (.typeError "get expects dict"))
      return String.intercalate " " parts
  | _ => throw (.typeError "object is not iterable")

/-- `create_quota`. -/
def create_quota (params : Params) : Except PyErr (String × Option String) := do
  require params ["name", "intervals"]
  let name ← quoteIdentV (← pitem params "name")
  let clause ← quotaClause (← pitem params "intervals")
  return ("CREATE QUOTA " ++ name ++ " " ++ clause,
          some ("DROP QUOTA IF EXISTS " ++ name))

/-- `alter_quota`. -/
def alter_quota (params : Params) : Except PyErr (String × Option String) := do
  require params ["name", "intervals"]
  let name ← quoteIdentV (← pitem params "name")
  let clause ← quotaClause (← pitem params "intervals")
  return ("ALTER QUOTA " ++ name ++ " " ++ clause, Option.none)

/-- `drop_quota`. -/
def drop_quota (params : Params) : Except PyErr (String × Option String) := do
  require params ["name"]
  let name ← quoteIdentV (← pitem params "name")
  return ("DROP QUOTA IF EXISTS " ++ name, Option.none)

/-- `assign_quota`. -/
def assign_quota (params : Params) : Except PyErr (String × Option String) := do
  require params ["target_name", "quota_name"]
  let target ← quoteIdentV (← pitem params "target_name")
  let quota ← quoteIdentV (← pitem params "quota_name")
  return ("ALTER USER " ++ target ++ " QUOTA " ++ quota, Option.none)

/-- The `BUILDERS` registry.  Row-policy operations are absent, exactly as in
the source table. -/
def BUILDERS : List (String × (Params → Except PyErr (String × Option String))) :=
  [("create_user", create_user),
   ("alter_user_password", alter_user_password),
   ("drop_user", drop_user),
   ("create_role", create_role),
   ("drop_role", drop_role),
   ("grant_role", grant_role),
   ("revoke_role", revoke_role),
   ("set_default_roles", set_default_roles),
   ("grant_privilege", grant_privilege),
   ("revoke_privilege", revoke_privilege),
   ("create_settings_profile", create_settings_profile),
   ("alter_settings_profile", alter_settings_profile),
   ("drop_settings_profile", drop_settings_profile),
   ("assign_settings_profile", assign_settings_profile),
   ("create_quota", create_quota),
   ("alter_quota", alter_quota),
   ("drop_quota", drop_quota),
   ("assign_quota", assign_quota)]

/-- `BUILDERS.get(operation_type)`. -/
def findBuilder (operation_type : String) :
    Option (Params → Except PyErr (String × Option String)) :=
  (BUILDERS.find? (fun kv => kv.1 = operation_type)).map (·.2)

/-- `build_sql(operation_type, params)`. -/
def build_sql (operation_type : String) (params : Params) :
    Except PyErr (String × Option String) :=
  match findBuilder operation_type with
  | some b => b params
  | Option.none => .error (.templateError ("Unknown operation type: " ++ operation_type))

end Templates

namespace SqlGen

/-!  Embedding of `apps/governance-service/app/sql_generator.py` (the preview
builder).  `_q`, `_esc` and `_scope` are source-identical to the executor's
`quote_identifier`/`quote_identifier` on values, `escape_string` and
`quote_scope`, so they are shared; the leading underscore of the Python names
is dropped. -/

/-- `_q` (same regex and `ValueError` as the executor's `quote_identifier`). -/
def q : PVal → Except PyErr String := Safety.quoteIdentV

/-- `_esc`. -/
def esc : PVal → Except PyErr String := Safety.escapeStringV

/-- `_scope`. -/
def scope : Option PVal → Option PVal → Except PyErr String := Safety.quote_scope

/-- `_create_user` (password masked as `'***'`). -/
def create_user (p : Params) : Except PyErr (String × Option String) := do
  let u ← q (← pitem p "username")
  let sql := "CREATE USER " ++ u ++ " IDENTIFIED WITH sha256_password BY '***'"
  let hostIps ← pgetOrEmptyList p "host_ip"
  let sql ← do
    if hostIps.isEmpty then pure sql
    else do
      let hs ← hostIps.mapM esc
      pure (sql ++ " HOST IP " ++ String.intercalate ", " (hs.map (fun h => "'" ++ h ++ "'")))
  let defaultRoles ← pgetOrEmptyList p "default_roles"
  let sql ← do
    if defaultRoles.isEmpty then pure sql
    else do
      let rs ← defaultRoles.mapM q
      pure (sql ++ " DEFAULT ROLE " ++ String.intercalate ", " rs)
  return (sql, some ("DROP USER IF EXISTS " ++ u))

/-- `_alter_user_password`. -/
def alter_user_password (p : Params) : Except PyErr (String × Option String) := do
  let u ← q (← pitem p "username")
  return ("ALTER USER " ++ u ++ " IDENTIFIED WITH sha256_password BY '***'", Option.none)

/-- `_drop_user`. -/
def drop_user (p : Params) : Except PyErr (String × Option String) := do
  let u ← q (← pitem p "username")
  return ("DROP USER IF EXISTS " ++ u, Option.none)

/-- `_create_role`. -/
def create_role (p : Params) : Except PyErr (String × Option String) := do
  let r ← q (← pitem p "role_name")
  return ("CREATE ROLE " ++ r, some ("DROP ROLE IF EXISTS " ++ r))

/-- `_drop_role`. -/
def drop_role (p : Params) : Except PyErr (String × Option String) := do
  let r ← q (← pitem p "role_name")
  return ("DROP ROLE IF EXISTS " ++ r, Option.none)

/-- `_grant_role`. -/
def grant_role (p : Params) : Except PyErr (String × Option String) := do
  let role ← q (← pitem p "role_name")
  let target ← q (← pitem p "target_name")
  return ("GRANT " ++ role ++ " TO " ++ target,
          some ("REVOKE " ++ role ++ " FROM " ++ target))

/-- `_revoke_role`. -/
def revoke_role (p : Params) : Except PyErr (String × Option String) := do
  let role ← q (← pitem p "role_name")
  let target ← q (← pitem p "target_name")
  return ("REVOKE " ++ role ++ " FROM " ++ target,
          some ("GRANT " ++ role ++ " TO " ++ target))

/-- `_set_default_roles` (note: `p.get("roles", [])`, and any non-list other
than `"ALL"` renders as `NONE`). -/
def set_default_roles (p : Params) : Except PyErr (String × Option String) := do
  let u ← q (← pitem p "username")
  let roles := (pget p "roles").getD (.list [])
  let r ← (do
    match roles with
    | .list rs =>
        if rs.isEmpty then pure "NONE"
        else do
          let qs ← rs.mapM q
          pure (String.intercalate ", " qs)
    | .str s => if s = "ALL" then pure "ALL" else pure "NONE"
    | _ => pure "NONE")
  return ("SET DEFAULT ROLE " ++ r ++ " TO " ++ u, Option.none)

/-- `_grant_privilege` — note: no allow-list check in the preview builder. -/
def grant_privilege (p : Params) : Except PyErr (String × Option String) := do
  let priv ← Templates.upperV (← pitem p "privilege")
  let s ← scope (pget p "database") (pget p "table")
  let target ← q (← pitem p "target_name")
  return ("GRANT " ++ priv ++ " ON " ++ s ++ " TO " ++ target,
          some ("REVOKE " ++ priv ++ " ON " ++ s ++ " FROM " ++ target))

/-- `_revoke_privilege`. -/
def revoke_privilege (p : Params) : Except PyErr (String × Option String) := do
  let priv ← Templates.upperV (← pitem p "privilege")
  let s ← scope (pget p "database") (pget p "table")
  let target ← q (← pitem p "target_name")
  return ("REVOKE " ++ priv ++ " ON " ++ s ++ " FROM " ++ target,
          some ("GRANT " ++ priv ++ " ON " ++ s ++ " TO " ++ target))

/-- `f"{k} = {v}"` settings rendering (no validation, no quoting). -/
def renderSettings (v : PVal) : Except PyErr String :=
  match v with
  | .dict es =>
      .ok (String.intercalate ", " (es.map (fun kv => kv.1 ++ " = " ++ pyStrV kv.2)))
  | _ => .error (.typeError "items expects dict")

/-- `_create_settings_profile`. -/
def create_settings_profile (p : Params) : Except PyErr (String × Option String) := do
  let n ← q (← pitem p "name")
  let clause ← renderSettings ((pget p "settings").getD (.dict []))
  return ("CREATE SETTINGS PROFILE " ++ n ++ " SETTINGS " ++ clause,
          some ("DROP SETTINGS PROFILE IF EXISTS " ++ n))

/-- `_alter_settings_profile`. -/
def alter_settings_profile (p : Params) : Except PyErr (String × Option String) := do
  let n ← q (← pitem p "name")
  let clause ← renderSettings ((pget p "settings").getD (.dict []))
  return ("ALTER SETTINGS PROFILE " ++ n ++ " SETTINGS " ++ clause, Option.none)

/-- `_drop_settings_profile`. -/
def drop_settings_profile (p : Params) : Except PyErr (String × Option String) := do
  let n ← q (← pitem p "name")
  return ("DROP SETTINGS PROFILE IF EXISTS " ++ n, Option.none)

/-- `_assign_settings_profile`. -/
def assign_settings_profile (p : Params) : Except PyErr (String × Option String) := do
  let target ← q (← pitem p "target_name")
  let profile ← q (← pitem p "profile_name")
  return ("ALTER USER " ++ target ++ " SETTINGS PROFILE " ++ profile, Option.none)

/-- The per-interval rendering shared by `_create_quota`/`_alter_quota`
(no duration or limit-name validation in the preview builder). -/
def renderIntervals (v : PVal) : Except PyErr String := do
  match v with
  | .list ivs => do
      let parts ← ivs.mapM (fun iv => do
        match iv with
        | .dict es => do
            let dur := Templates.dGet es "duration" (.str "1 hour")
            let limits ← (do
              match Templates.dGet es "limits" (.dict []) with
              | .dict ls => pure ls
              | _ => throw (.typeError "items expects dict"))
            let lp := String.intercalate ", "
              (limits.map (fun kv => kv.1 ++ " = " ++ pyStrV kv.2))
            pure ("FOR INTERVAL " ++ pyStrV dur ++ " MAX " ++ lp)
        | _ => throw (.typeError "get expects dict"))
      return String.intercalate " " parts
  | _ => throw (.typeError "object is not iterable")

/-- `_create_quota`. -/
def create_quota (p : Params) : Except PyErr (String × Option String) := do
  let n ← q (← pitem p "name")
  let clause ← renderIntervals ((pget p "intervals").getD (.list []))
  return ("CREATE QUOTA " ++ n ++ " " ++ clause, some ("DROP QUOTA IF EXISTS " ++ n))

/-- `_alter_quota`. -/
def alter_quota (p : Params) : Except PyErr (String × Option String) := do
  let n ← q (← pitem p "name")
  let clause ← renderIntervals ((pget p "intervals").getD (.list []))
  return ("ALTER QUOTA " ++ n ++ " " ++ clause, Option.none)

/-- `_drop_quota`. -/
def drop_quota (p : Params) : Except PyErr (String × Option String) := do
  let n ← q (← pitem p "name")
  return ("DROP QUOTA IF EXISTS " ++ n, Option.none)

/-- `_assign_quota`. -/
def assign_quota (p : Params) : Except PyErr (String × Option String) := do
  let target ← q (← pitem p "target_name")
  let quota ← q (← pitem p "quota_name")
  return ("ALTER USER " ++ target ++ " QUOTA " ++ quota, Option.none)

/-- `_create_row_policy`. -/
def create_row_policy (p : Params) : Except PyErr (String × Option String) := do
  let name ← q (← pitem p "name")
  let db ← q (← pitem p "database")
  let table ← q (← pitem p "table")
  let condition := (pget p "condition").getD (.str "1")
  let restrictive := (pget p "restrictive").getD (.bool false)
  let polType := if pyFalsyV restrictive then "PERMISSIVE" else "RESTRICTIVE"
  let sql := "CREATE ROW POLICY " ++ name ++ " ON " ++ db ++ "." ++ table ++
             " AS " ++ polType ++ " FOR SELECT USING " ++ pyStrV condition
  let sql ← (do
    match pget p "apply_to" with
    | some v =>
        if pyFalsyV v then pure sql
        else do
          let xs ← pyIter v
          let ts ← xs.mapM q
          pure (sql ++ " TO " ++ String.intercalate ", " ts)
    | Option.none => pure sql)
  return (sql, some ("DROP ROW POLICY IF EXISTS " ++ name ++ " ON " ++ db ++ "." ++ table))

/-- `_alter_row_policy`. -/
def alter_row_policy (p : Params) : Except PyErr (String × Option String) := do
  let name ← q (← pitem p "name")
  let db ← q (← pitem p "database")
  let table ← q (← pitem p "table")
  let parts := ["ALTER ROW POLICY " ++ name ++ " ON " ++ db ++ "." ++ table]
  let parts ← (do
    match pget p "condition" with
    | some c => if pyFalsyV c then pure parts else pure (parts ++ ["USING " ++ pyStrV c])
    | Option.none => pure parts)
  let parts ← (do
    match pget p "apply_to" with
    | some v =>
        if pyFalsyV v then pure parts
        else do
          let xs ← pyIter v
          let ts ← xs.mapM q
          pure (parts ++ ["TO " ++ String.intercalate ", " ts])
    | Option.none => pure parts)
  return (String.intercalate " " parts, Option.none)

/-- `_drop_row_policy`. -/
def drop_row_policy (p : Params) : Except PyErr (String × Option String) := do
  let name ← q (← pitem p "name")
  let db ← q (← pitem p "database")
  let table ← q (← pitem p "table")
  return ("DROP ROW POLICY IF EXISTS " ++ name ++ " ON " ++ db ++ "." ++ table, Option.none)

/-- The `_GENERATORS` registry — 21 entries, including the row-policy
operations that the executor's `BUILDERS` table lacks. -/
def GENERATORS : List (String × (Params → Except PyErr (String × Option String))) :=
  [("create_user", create_user),
   ("alter_user_password", alter_user_password),
   ("drop_user", drop_user),
   ("create_role", create_role),
   ("drop_role", drop_role),
   ("grant_role", grant_role),
   ("revoke_role", revoke_role),
   ("set_default_roles", set_default_roles),
   ("grant_privilege", grant_privilege),
   ("revoke_privilege", revoke_privilege),
   ("create_settings_profile", create_settings_profile),
   ("alter_settings_profile", alter_settings_profile),
   ("drop_settings_profile", drop_settings_profile),
   ("assign_settings_profile", assign_settings_profile),
   ("create_quota", create_quota),
   ("alter_quota", alter_quota),
   ("drop_quota", drop_quota),
   ("assign_quota", assign_quota),
   ("create_row_policy", create_row_policy),
   ("alter_row_policy", alter_row_policy),
   ("drop_row_policy", drop_row_policy)]

/-- `_GENERATORS[operation_type]` lookup. -/
def findGenerator (operation_type : String) :
    Option (Params → Except PyErr (String × Option String)) :=
  (GENERATORS.find? (fun kv => kv.1 = operation_type)).map (·.2)

/-- `generate_sql_preview`: a `KeyError` — whether from the registry lookup or
from inside a generator — hits the first `except KeyError` clause and yields
the `-- Unknown operation` marker; a `ValueError` yields the `-- Error` marker;
any other exception propagates. -/
def generate_sql_preview (operation_type : String) (params : Params) :
    Except PyErr (String × Option String) :=
  match findGenerator operation_type with
  | Option.none => .ok ("-- Unknown operation: " ++ operation_type, Option.none)
  | some g =>
      match g params with
      | .ok r => .ok r
      | .error (.keyError _) => .ok ("-- Unknown operation: " ++ operation_type, Option.none)
      | .error (.valueError m) => .ok ("-- Error: " ++ m, Option.none)
      | .error e => .error e

/-- A preview result counts as accepted when it is an actual SQL string, not
one of the two error markers. -/
def previewAccepted (operation_type : String) (params : Params) : Prop :=
  ∃ sql comp, generate_sql_preview operation_type params = .ok (sql, comp) ∧
    ¬ strStartsWith sql "-- Unknown operation: " ∧ ¬ strStartsWith sql "-- Error: "

end SqlGen

namespace Encryption

/-!  The AEAD layer (`encryption.py`) is abstracted to a tagged round trip:
`decrypt` succeeds exactly on `encrypt` images and fails otherwise, which is
all the pipeline observes of it. -/

/-- Abstracted `encrypt`. -/
def encrypt (s : String) : String := "enc:" ++ s

/-- Abstracted `decrypt`; failure is fatal for the operation requiring it. -/
def decrypt (s : String) : Except String String :=
  if strStartsWith s "enc:" then .ok (strDrop s 4) else .error "decryption failed"

end Encryption

namespace Executor

/-!  Embedding of `apps/executor-service/app/executor.py` (`run_job`) and the
schemas it consumes.  Cluster I/O is an oracle mapping the index of each HTTP
call to its outcome; wall-clock fields are omitted. -/

/-- One element of `CreateJobRequest.operations`. -/
structure OperationPayload where
  order_index : Nat
  operation_type : String
  params : Params

/-- `ClusterConfig` from the job request. -/
structure ClusterConfig where
  host : String
  port : Nat
  protocol : String
  username : String
  password_encrypted : String
deriving DecidableEq

/-- `CreateJobRequest`. -/
structure CreateJobRequest where
  proposal_id : Nat
  cluster_id : Nat
  actor_user_id : Nat
  correlation_id : String
  mode : String
  cluster_config : ClusterConfig
  operations : List OperationPayload

/-- A `Job` row (timestamps omitted). -/
structure Job where
  id : Nat
  proposal_id : Nat
  cluster_id : Nat
  actor_user_id : Nat
  correlation_id : String
  mode : String
  status : String
  error : Option String := Option.none
deriving DecidableEq

/-- A `JobStep` row (timestamps omitted). -/
structure JobStep where
  job_id : Nat
  step_index : Nat
  operation_type : String
  sql_statement : String
  compensation_sql : Option String
  status : String
  result_message : Option String
deriving DecidableEq

/-- The committed executor store. -/
structure ExecDB where
  jobs : List Job
  steps : List JobStep
deriving DecidableEq

/-- Outcome of one ClickHouse HTTP POST in `_ch_execute`. -/
inductive ChResult where
  /-- 2xx: `resp.text`. -/
  | ok (text : String)
  /-- `raise_for_status` raised `httpx.HTTPStatusError` (status ≥ 400). -/
  | httpError (body : String)
  /-- any other `httpx` failure: timeout, connection refused, DNS, TLS … -/
  | transport (msg : String)
deriving DecidableEq

/-- Exceptions escaping `run_job`. -/
inductive RunErr where
  /-- `ExecutionError` raised on decryption failure. -/
  | executionError (msg : String)
  /-- a non-`TemplateError` exception escaping the SQL build loop. -/
  | uncaughtBuild (e : PyErr)
  /-- a non-`HTTPStatusError` httpx exception escaping the apply loop. -/
  | uncaughtTransport (msg : String)
deriving DecidableEq

/-- Which of `run_job`'s `return` statements produced the result. -/
inductive ExitPoint where
  | idempotent
  | templateFailure
  | dryRun
  | classified
deriving DecidableEq

/-- What a completed `run_job` call commits and returns. -/
structure RunOutcome where
  job : Job
  newSteps : List JobStep
  db : ExecDB
  /-- the SQL statements actually POSTed to the cluster, in order. -/
  executed : List String
  exitPoint : ExitPoint
deriving DecidableEq

/-- `sorted(request.operations, key=lambda o: o.order_index)` (stable,
ascending). -/
def opLe (a b : OperationPayload) : Prop := a.order_index ≤ b.order_index

instance : DecidableRel opLe :=
  fun a b => inferInstanceAs (Decidable (a.order_index ≤ b.order_index))

instance : IsTotal OperationPayload opLe := ⟨fun _ _ => Nat.le_total _ _⟩

instance : IsTrans OperationPayload opLe := ⟨fun _ _ _ => Nat.le_trans⟩

/-- The sorted operation list. -/
def sortOps (ops : List OperationPayload) : List OperationPayload :=
  List.insertionSort opLe ops

/-- The `status="pending"` step materialized for a successfully templated
operation. -/
def pendingStep (jobId : Nat) (op : OperationPayload) (f : String) (c : Option String) :
    JobStep :=
  ⟨jobId, op.order_index, op.operation_type, f, c, "pending", Option.none⟩

/-- The `for remaining in sorted_ops[...index(op)+1:]` loop after a template
failure: only `TemplateError` is caught when re-building; anything else
escapes `run_job`.  (When the loop runs, the failing op has no earlier
duplicate, so the positional remainder equals the slice in the source.) -/
def skipRemaining (jobId : Nat) : List OperationPayload → Except RunErr (List JobStep)
  | [] => .ok []
  | op :: rest =>
      match Templates.build_sql op.operation_type op.params with
      | .ok (f, c) =>
          (skipRemaining jobId rest).map (fun l =>
            ⟨jobId, op.order_index, op.operation_type, f, c,
             "skipped", some "Skipped due to earlier error"⟩ :: l)
      | .error (.templateError _) =>
          (skipRemaining jobId rest).map (fun l =>
            ⟨jobId, op.order_index, op.operation_type,
             "-- TEMPLATE ERROR for " ++ op.operation_type, Option.none,
             "skipped", some "Skipped due to earlier error"⟩ :: l)
      | .error e => .error (.uncaughtBuild e)

/-- The build loop over the sorted operations.  Returns the materialized steps
plus `some (step_index, message)` when a `TemplateError` stopped the job. -/
def buildSteps (jobId : Nat) :
    List OperationPayload → Except RunErr (List JobStep × Option (Nat × String))
  | [] => .ok ([], Option.none)
  | op :: rest =>
      match Templates.build_sql op.operation_type op.params with
      | .ok (f, c) =>
          (buildSteps jobId rest).map (fun r => (pendingStep jobId op f c :: r.1, r.2))
      | .error (.templateError m) =>
          (skipRemaining jobId rest).map (fun skips =>
            (⟨jobId, op.order_index, op.operation_type, "-- TEMPLATE ERROR: " ++ m,
              Option.none, "error", some m⟩ :: skips,
             some (op.order_index, m)))
      | .error e => .error (.uncaughtBuild e)

/-- The apply-mode loop.  `k` counts cluster calls; `failed` is the skip flag.
Only `httpx.HTTPStatusError` is caught — a transport failure (timeout,
connection error …) escapes. -/
def applyLoop (oracle : Nat → ChResult) :
    Nat → Bool → List JobStep → Except RunErr (List JobStep × List String)
  | _, _, [] => .ok ([], [])
  | k, failed, s :: rest =>
      if failed then
        (applyLoop oracle k true rest).map (fun r =>
          ({ s with status := "skipped",
                    result_message := some "Skipped due to earlier failure" } :: r.1, r.2))
      else
        match oracle k with
        | .ok text =>
            let msg := if pyStrip text = "" then "OK" else pyStrip text
            (applyLoop oracle (k + 1) false rest).map (fun r =>
              ({ s with status := "success", result_message := some msg } :: r.1,
               s.sql_statement :: r.2))
        | .httpError body =>
            (applyLoop oracle (k + 1) true rest).map (fun r =>
              ({ s with status := "error", result_message := some (strTake body 500) } :: r.1,
               s.sql_statement :: r.2))
        | .transport m => .error (.uncaughtTransport m)

/-- `[1, 2, 3]`-style rendering of the failing step indexes. -/
def pyIntListRepr (ns : List Nat) : String :=
  "[" ++ String.intercalate ", " (ns.map toString) ++ "]"

/-- The final status classification over the step status set. -/
def classifyStatus (steps : List JobStep) : String :=
  let hasErr := steps.any (fun s => s.status = "error")
  let hasSucc := steps.any (fun s => s.status = "success")
  if hasErr && hasSucc then "partial_failure"
  else if hasErr then "failed"
  else "completed"

/-- `job.error` after classification: the failing step indexes, when any. -/
def failedStepsError (steps : List JobStep) : Option String :=
  if steps.any (fun s => s.status = "error") then
    some ("Failed at step(s): " ++
      pyIntListRepr ((steps.filter (fun s => s.status = "error")).map (·.step_index)))
  else Option.none

/-- `run_job(request, db)`.  The oracle gives each cluster HTTP call's
outcome; the returned `RunOutcome.db` is the committed store. -/
def run_job (request : CreateJobRequest) (oracle : Nat → ChResult) (db : ExecDB) :
    Except RunErr RunOutcome :=
  match db.jobs.find? (fun j => j.correlation_id = request.correlation_id) with
  | some existing => .ok ⟨existing, [], db, [], .idempotent⟩
  | Option.none =>
      match Encryption.decrypt request.cluster_config.password_encrypted with
      | .error e => .error (.executionError ("Failed to decrypt cluster password: " ++ e))
      | .ok _chPassword =>
          let jobId := db.jobs.length + 1
          let job : Job := ⟨jobId, request.proposal_id, request.cluster_id,
                            request.actor_user_id, request.correlation_id,
                            request.mode, "running", Option.none⟩
          match buildSteps jobId (sortOps request.operations) with
          | .error e => .error e
          | .ok (steps, some km) =>
              let job := { job with
                status := "failed",
                error := some ("Template error at step " ++ toString km.1 ++ ": " ++ km.2) }
              .ok ⟨job, steps, ⟨db.jobs ++ [job], db.steps ++ steps⟩, [], .templateFailure⟩
          | .ok (steps, Option.none) =>
              if request.mode = "dry_run" then
                let steps := steps.map (fun s =>
                  { s with status := "dry_run_ok", result_message := some "Validation passed" })
                let job := { job with status := "completed" }
                .ok ⟨job, steps, ⟨db.jobs ++ [job], db.steps ++ steps⟩, [], .dryRun⟩
              else
                match applyLoop oracle 0 false steps with
                | .error e => .error e
                | .ok (steps, trace) =>
                    let job := { job with
                      status := classifyStatus steps,
                      error := failedStepsError steps }
                    .ok ⟨job, steps, ⟨db.jobs ++ [job], db.steps ++ steps⟩, trace, .classified⟩

end Executor

namespace Rbac

/-!  Embedding of `apps/governance-service/app/rbac_graph.py`: the parts of
`RBACGraph` on the `resolve_effective_privileges` path.  The `defaultdict`
adjacency maps are represented extensionally: the bucket for a key is the
filtered, order-preserving list of normalized rows, which is exactly what the
append loops in `__init__` produce. -/

/-- Truthiness of an optional string (`if rg.get("user_name"):`). -/
def pyTruthyS (o : Option String) : Bool :=
  match o with
  | some s => s != ""
  | Option.none => false

/-- `x or None`: empty strings collapse to `None`. -/
def pyOrNone (v : Option String) : Option String :=
  match v with
  | some s => if s = "" then Option.none else some s
  | Option.none => Option.none

/-- A raw `system.role_grants` row (the fields the resolver reads). -/
structure RawRoleGrant where
  user_name : Option String := Option.none
  role_name : Option String := Option.none
  granted_role_name : Option String := Option.none
  granted_role_is_default : Int := 0
  with_admin_option : Int := 0
deriving DecidableEq

/-- A raw `system.grants` row (the fields the resolver reads). -/
structure RawGrant where
  user_name : Option String := Option.none
  role_name : Option String := Option.none
  access_type : Option String := Option.none
  database : Option String := Option.none
  table : Option String := Option.none
  column : Option String := Option.none
  is_partial_revoke : Int := 0
  grant_option : Int := 0
deriving DecidableEq

/-- The raw snapshot payload (the two families the effective-privilege
resolution reads). -/
structure RawSnapshot where
  role_grants : List RawRoleGrant := []
  grants : List RawGrant := []

/-- A normalized privilege dict, as built in `__init__` for each grants row. -/
structure Priv where
  access_type : String
  database : Option String
  table : Option String
  column : Option String
  is_partial_revoke : Bool
  grant_option : Bool
deriving DecidableEq

/-- The normalization applied to each raw grants row. -/
def mkPriv (g : RawGrant) : Priv :=
  ⟨g.access_type.getD "", pyOrNone g.database, pyOrNone g.table, pyOrNone g.column,
   g.is_partial_revoke != 0, g.grant_option != 0⟩

/-- A normalized role-grant entry. -/
structure RoleEntry where
  granted_role_name : String
  is_default : Bool
  with_admin_option : Bool
deriving DecidableEq

/-- The normalization applied to each raw role-grants row. -/
def mkRoleEntry (rg : RawRoleGrant) : RoleEntry :=
  ⟨rg.granted_role_name.getD "", rg.granted_role_is_default != 0,
   rg.with_admin_option != 0⟩

/-- `self._user_roles[u]`. -/
def userRolesOf (raw : RawSnapshot) (u : String) : List RoleEntry :=
  (raw.role_grants.filter
    (fun rg => pyTruthyS rg.user_name && rg.user_name == some u)).map mkRoleEntry

/-- `self._role_parents[r]` (the `elif` branch). -/
def roleParentsOf (raw : RawSnapshot) (r : String) : List RoleEntry :=
  (raw.role_grants.filter
    (fun rg => !pyTruthyS rg.user_name && pyTruthyS rg.role_name &&
               rg.role_name == some r)).map mkRoleEntry

/-- `self._user_grants[u]`. -/
def userGrantsOf (raw : RawSnapshot) (u : String) : List Priv :=
  (raw.grants.filter
    (fun g => pyTruthyS g.user_name && g.user_name == some u)).map mkPriv

/-- `self._role_grants_map[r]` (the `elif` branch). -/
def roleGrantsMapOf (raw : RawSnapshot) (r : String) : List Priv :=
  (raw.grants.filter
    (fun g => !pyTruthyS g.user_name && pyTruthyS g.role_name &&
              g.role_name == some r)).map mkPriv

/-- One entry of `resolve_user_roles`. -/
structure RoleRes where
  role_name : String
  is_direct : Bool
  is_default : Bool
  path : List String
deriving DecidableEq

/-- The inner `_walk` of `resolve_user_roles`, threading `(visited, result)`.
The visited set makes the Python recursion terminate after at most one new
role per call; the fuel is set beyond that bound by the caller. -/
def walk (raw : RawSnapshot) :
    Nat → List String × List RoleRes → String → List String → Bool → Bool →
    List String × List RoleRes
  | 0, st, _, _, _, _ => st
  | fuel + 1, st, roleName, path, isDirect, isDefault =>
      if roleName ∈ st.1 then st
      else
        let st := (roleName :: st.1, st.2 ++ [⟨roleName, isDirect, isDefault, path⟩])
        (roleParentsOf raw roleName).foldl
          (fun st parent =>
            walk raw fuel st parent.granted_role_name
              (path ++ [parent.granted_role_name]) false false)
          st

/-- `resolve_user_roles(user_name)`. -/
def resolve_user_roles (raw : RawSnapshot) (user : String) : List RoleRes :=
  let fuel := raw.role_grants.length + 1
  ((userRolesOf raw user).foldl
    (fun st entry =>
      walk raw fuel st entry.granted_role_name
        [user, entry.granted_role_name] true entry.is_default)
    ([], [])).2

/-- A privilege tagged with its source attribution, as assembled in
`resolve_effective_privileges`. -/
structure EffPriv where
  priv : Priv
  source : String
  source_name : String
  path : List String
deriving DecidableEq

/-- The full positive-and-revoke collection phase (direct grants, then grants
via every resolved role). -/
def collectedPrivs (raw : RawSnapshot) (user : String) : List EffPriv :=
  (userGrantsOf raw user).map (fun p => ⟨p, "direct", user, [user]⟩) ++
  (resolve_user_roles raw user).flatMap (fun ri =>
    (roleGrantsMapOf raw ri.role_name).map (fun p => ⟨p, "role", ri.role_name, ri.path⟩))

/-- The collected partial revokes. -/
def collectedRevokes (raw : RawSnapshot) (user : String) : List EffPriv :=
  (collectedPrivs raw user).filter (fun p => p.priv.is_partial_revoke)

/-- The collected positive grants. -/
def collectedGrants (raw : RawSnapshot) (user : String) : List EffPriv :=
  (collectedPrivs raw user).filter (fun p => !p.priv.is_partial_revoke)

/-- `_scope_covers(revoke, grant)`. -/
def scope_covers (revoke grant : Priv) : Bool :=
  if pyTruthyS revoke.database && revoke.database != grant.database then false
  else if pyTruthyS revoke.table && revoke.table != grant.table then false
  else if pyTruthyS revoke.column && revoke.column != grant.column then false
  else true

/-- `resolve_effective_privileges(user_name)`. -/
def resolve_effective_privileges (raw : RawSnapshot) (user : String) : List EffPriv :=
  (collectedGrants raw user).filter (fun g =>
    !((collectedRevokes raw user).any (fun r =>
        r.priv.access_type == g.priv.access_type && scope_covers r.priv g.priv)))

/-- The specification's covering rule: for each of database, table and column
the revoke's value is null (wildcard) or equals the grant's value. -/
def specCovers (r g : Priv) : Prop :=
  (r.database = Option.none ∨ r.database = g.database) ∧
  (r.table = Option.none ∨ r.table = g.table) ∧
  (r.column = Option.none ∨ r.column = g.column)

instance (r g : Priv) : Decidable (specCovers r g) := by
  unfold specCovers; infer_instance

end Rbac

namespace Clusters

/-!  Embedding of `update_cluster` from
`apps/governance-service/app/routes/cluster_routes.py`: the field-update loop,
the critical-field tracking and the reset block.  The audit event, the 404 and
the 409 name-conflict check do not touch the cluster row and are omitted;
PATCH bodies carry `exclude_unset` fields, modelled as `Option`s. -/

/-- A cluster row (the fields `update_cluster` touches; timestamps are
abstract naturals). -/
structure Cluster where
  name : String
  host : String
  port : Nat
  protocol : String
  username : String
  password_encrypted : String
  database : Option String
  status : String
  last_tested_at : Option Nat
  latency_ms : Option Int
  server_version : Option String
  current_user_detected : Option String
  error_code : Option String
  error_message : Option String
deriving DecidableEq

/-- `ClusterUpdate` with `exclude_unset=True`: a `some` field is present in
the PATCH body. -/
structure ClusterUpdate where
  name : Option String := Option.none
  host : Option String := Option.none
  port : Option Nat := Option.none
  protocol : Option String := Option.none
  username : Option String := Option.none
  password : Option String := Option.none
  database : Option String := Option.none

/-- One loop iteration for the `name` field: set when present and different
(non-critical). -/
def stageName (s : Cluster × Bool) (u : Option String) : Cluster × Bool :=
  match u with
  | some v => if s.1.name = v then s else ({ s.1 with name := v }, s.2)
  | Option.none => s

/-- One loop iteration for `host` (critical). -/
def stageHost (s : Cluster × Bool) (u : Option String) : Cluster × Bool :=
  match u with
  | some v => if s.1.host = v then s else ({ s.1 with host := v }, true)
  | Option.none => s

/-- One loop iteration for `port` (critical). -/
def stagePort (s : Cluster × Bool) (u : Option Nat) : Cluster × Bool :=
  match u with
  | some v => if s.1.port = v then s else ({ s.1 with port := v }, true)
  | Option.none => s

/-- One loop iteration for `protocol` (critical). -/
def stageProtocol (s : Cluster × Bool) (u : Option String) : Cluster × Bool :=
  match u with
  | some v => if s.1.protocol = v then s else ({ s.1 with protocol := v }, true)
  | Option.none => s

/-- One loop iteration for `username` (critical). -/
def stageUsername (s : Cluster × Bool) (u : Option String) : Cluster × Bool :=
  match u with
  | some v => if s.1.username = v then s else ({ s.1 with username := v }, true)
  | Option.none => s

/-- One loop iteration for `password`: applied (and critical) only when
truthy; stored encrypted without comparing to the old value. -/
def stagePassword (s : Cluster × Bool) (u : Option String) : Cluster × Bool :=
  match u with
  | some v =>
      if v = "" then s
      else ({ s.1 with password_encrypted := Encryption.encrypt v }, true)
  | Option.none => s

/-- One loop iteration for `database` (non-critical). -/
def stageDatabase (s : Cluster × Bool) (u : Option String) : Cluster × Bool :=
  match u with
  | some v => if s.1.database = some v then s else ({ s.1 with database := some v }, s.2)
  | Option.none => s

/-- The reset block applied when a critical field changed. -/
def resetHealth (c : Cluster) : Cluster :=
  { c with
    status := "never_tested",
    last_tested_at := Option.none,
    latency_ms := Option.none,
    server_version := Option.none,
    current_user_detected := Option.none,
    error_code := Option.none,
    error_message := Option.none }

/-- `update_cluster`: the field loop (in model-field order) threading the
`critical_changed` flag, then the reset block.  A non-password field counts
only when its new value differs from the old; a password counts when
truthy. -/
def update_cluster (c : Cluster) (u : ClusterUpdate) : Cluster :=
  let s :=
    stageDatabase
      (stagePassword
        (stageUsername
          (stageProtocol
            (stagePort
              (stageHost (stageName (c, false) u.name) u.host)
              u.port)
            u.protocol)
          u.username)
        u.password)
      u.database
  if s.2 then resetHealth s.1 else s.1

/-- Health status and all diagnostic fields agree between two cluster rows. -/
def diagEq (a b : Cluster) : Prop :=
  a.status = b.status ∧ a.last_tested_at = b.last_tested_at ∧
  a.latency_ms = b.latency_ms ∧ a.server_version = b.server_version ∧
  a.current_user_detected = b.current_user_detected ∧
  a.error_code = b.error_code ∧ a.error_message = b.error_message

/-- A PATCH body that mutates a critical field: one of host, port, protocol or
username is present with a different value, or a non-empty password is
present. -/
def criticalMutation (c : Cluster) (u : ClusterUpdate) : Prop :=
  (∃ v, u.host = some v ∧ v ≠ c.host) ∨
  (∃ v, u.port = some v ∧ v ≠ c.port) ∨
  (∃ v, u.protocol = some v ∧ v ≠ c.protocol) ∨
  (∃ v, u.username = some v ∧ v ≠ c.username) ∨
  (∃ v, u.password = some v ∧ v ≠ "")

/-- A PATCH body that only touches the non-critical fields `name` and
`database`. -/
def nonCriticalOnly (u : ClusterUpdate) : Prop :=
  u.host = Option.none ∧ u.port = Option.none ∧ u.protocol = Option.none ∧
  u.username = Option.none ∧ u.password = Option.none

end Clusters

namespace Proposals

/-!  Embedding of the preview-assembly part of `create_proposal`
(`apps/governance-service/app/routes/proposal_routes.py`): the loop collecting
`all_sql` / `all_comp` and the stored `sql_preview` / `compensation_sql`. -/

/-- The collection loop over the operations: every preview SQL in order, and
every truthy compensation (`if comp:`) in order. -/
def previewLoop : List (String × Params) → Except PyErr (List String × List String)
  | [] => .ok ([], [])
  | (t, p) :: rest =>
      match SqlGen.generate_sql_preview t p with
      | .error e => .error e
      | .ok r =>
          match previewLoop rest with
          | .error e => .error e
          | .ok tail =>
              .ok (r.1 :: tail.1,
                   (match r.2 with
                    | some s => if s = "" then [] else [s]
                    | Option.none => []) ++ tail.2)

/-- The `(sql_preview, compensation_sql)` stored on the proposal row:
newline-joined previews, and the newline-join of `reversed(all_comp)` when
`all_comp` is non-empty. -/
def create_proposal_sql (ops : List (String × Params)) :
    Except PyErr (String × Option String) :=
  match previewLoop ops with
  | .error e => .error e
  | .ok r =>
      .ok (String.intercalate "\n" r.1,
           if r.2.isEmpty then Option.none
           else some (String.intercalate "\n" r.2.reverse))

/-- `if comp:` — a compensation survives the collection exactly when it is a
truthy string. -/
def truthyComp (c : Option String) : Option String :=
  match c with
  | some s => if s = "" then Option.none else some s
  | Option.none => Option.none

end Proposals

/-- A JSON value as found in raw snapshot rows.  Arrays are encoded as cons
chains (`arrNil` / `arrCons`) so that the type is a plain inductive with
decidable equality. -/
inductive JVal where
  | str (s : String)
  | num (n : Int)
  | bool (b : Bool)
  | null
  | arrNil
  | arrCons (hd tl : JVal)
deriving DecidableEq

namespace Diff

/-!  Embedding of `apps/governance-service/app/snapshot_diff.py`.  A raw row is
an association list of JSON values with Python-dict key semantics. -/

/-- A raw entity row. -/
abbrev Item := List (String × JVal)

/-- `row.get(k, dflt)`. -/
def itemGet (i : Item) (k : String) (dflt : JVal) : JVal :=
  (((i.find? (fun kv => kv.1 = k)).map (·.2)).getD dflt)

/-- A cons-encoded JSON array back to a list. -/
def consToList : JVal → List JVal
  | .arrCons h t => h :: consToList t
  | _ => []

mutual

/-- `repr` of a JSON value (used through `str` in the f-string keys). -/
def pyReprJ : JVal → String
  | .str s => pyReprStr s
  | .num n => toString n
  | .bool b => if b then "True" else "False"
  | .null => "None"
  | .arrNil => "[]"
  | .arrCons h t => "[" ++ pyReprJ h ++ pyReprJRest t ++ "]"

/-- Comma-separated continuation of a cons-encoded array. -/
def pyReprJRest : JVal → String
  | .arrCons h t => ", " ++ pyReprJ h ++ pyReprJRest t
  | _ => ""

end

/-- `str` of a JSON value. -/
def pyStrJ : JVal → String
  | .str s => s
  | v => pyReprJ v

/-- `users` / `roles` key: `u.get("name", "")` used directly as the dict
key. -/
def nameKey (i : Item) : JVal := itemGet i "name" (.str "")

/-- `_role_grant_key`. -/
def roleGrantKey (i : Item) : String :=
  pyStrJ (itemGet i "user_name" (.str "")) ++ "|" ++
  pyStrJ (itemGet i "role_name" (.str "")) ++ "|" ++
  pyStrJ (itemGet i "granted_role_name" (.str ""))

/-- `_grant_key`. -/
def grantKey (i : Item) : String :=
  pyStrJ (itemGet i "user_name" (.str "")) ++ "|" ++
  pyStrJ (itemGet i "role_name" (.str "")) ++ "|" ++
  pyStrJ (itemGet i "access_type" (.str "")) ++ "|" ++
  pyStrJ (itemGet i "database" (.str "")) ++ "|" ++
  pyStrJ (itemGet i "table" (.str "")) ++ "|" ++
  pyStrJ (itemGet i "column" (.str ""))

mutual

/-- JSON rendering of a value for `_serialise`. -/
def serialiseJ : JVal → String
  | .str s =>
      "\"" ++ String.mk (s.data.flatMap (fun c =>
        if c = bslCh then [bslCh, bslCh]
        else if c = '"' then [bslCh, '"']
        else [c])) ++ "\""
  | .num n => toString n
  | .bool b => if b then "true" else "false"
  | .null => "null"
  | .arrNil => "[]"
  | .arrCons h t => "[" ++ serialiseJ h ++ serialiseJRest t ++ "]"

/-- Comma-separated continuation of a cons-encoded array. -/
def serialiseJRest : JVal → String
  | .arrCons h t => ", " ++ serialiseJ h ++ serialiseJRest t
  | _ => ""

end

/-- Key ordering for `sort_keys=True`. -/
def pairLe (a b : String × JVal) : Prop := a.1 ≤ b.1

instance : DecidableRel pairLe :=
  fun a b => inferInstanceAs (Decidable (a.1 ≤ b.1))

/-- `_serialise`: canonical JSON with sorted keys. -/
def serialiseItem (i : Item) : String :=
  "\x7b" ++ String.intercalate ", "
    ((List.insertionSort pairLe i).map
      (fun kv => serialiseJ (.str kv.1) ++ ": " ++ serialiseJ kv.2)) ++ "\x7d"

/-- Python-dict insertion: overwrite in place, else append. -/
def insertKey {K α : Type} [DecidableEq K] : List (K × α) → K → α → List (K × α)
  | [], k, v => [(k, v)]
  | (k', v') :: rest, k, v =>
      if k' = k then (k, v) :: rest else (k', v') :: insertKey rest k v

/-- `{key_fn(i): i for i in items}`. -/
def buildMap {K α : Type} [DecidableEq K] (items : List α) (key : α → K) : List (K × α) :=
  items.foldl (fun m i => insertKey m (key i) i) []

/-- Dict lookup. -/
def lookupK {K α : Type} [DecidableEq K] (m : List (K × α)) (k : K) : Option α :=
  (m.find? (fun kv => kv.1 = k)).map (·.2)

/-- One entry of a family's `modified` list. -/
structure ModPair where
  old : Item
  new : Item
deriving DecidableEq

/-- The per-family diff payload. -/
structure FamilyDiff where
  added : List Item
  removed : List Item
  modified : List ModPair
  added_count : Nat
  removed_count : Nat
  modified_count : Nat
deriving DecidableEq

/-- `_diff_by_key(old_items, new_items, key_fn, label)` (the `label` argument
is unused in the source). -/
def diffByKey {K : Type} [DecidableEq K]
    (old_items new_items : List Item) (key : Item → K) : FamilyDiff :=
  let om := buildMap old_items key
  let nm := buildMap new_items key
  let added := (nm.filter (fun p => (lookupK om p.1).isNone)).map (·.2)
  let removed := (om.filter (fun p => (lookupK nm p.1).isNone)).map (·.2)
  let modified := om.filterMap (fun p =>
    match lookupK nm p.1 with
    | some v =>
        if serialiseItem p.2 = serialiseItem v then Option.none else some ⟨p.2, v⟩
    | Option.none => Option.none)
  ⟨added, removed, modified, added.length, removed.length, modified.length⟩

/-- A raw snapshot dict (each family defaulting to `[]`). -/
structure Snap where
  users : List Item := []
  roles : List Item := []
  role_grants : List Item := []
  grants : List Item := []

/-- The structured result of `compute_diff`. -/
structure DiffResult where
  users : FamilyDiff
  roles : FamilyDiff
  role_grants : FamilyDiff
  grants : FamilyDiff
deriving DecidableEq

/-- `compute_diff(old_raw, new_raw)`. -/
def compute_diff (old_raw new_raw : Snap) : DiffResult :=
  ⟨diffByKey old_raw.users new_raw.users nameKey,
   diffByKey old_raw.roles new_raw.roles nameKey,
   diffByKey old_raw.role_grants new_raw.role_grants roleGrantKey,
   diffByKey old_raw.grants new_raw.grants grantKey⟩

/-- The empty per-family diff. -/
def emptyFamilyDiff : FamilyDiff := ⟨[], [], [], 0, 0, 0⟩

/-- The distinct-key side condition of the diff claims, per family. -/
def DistinctKeys (s : Snap) : Prop :=
  (s.users.map nameKey).Nodup ∧ (s.roles.map nameKey).Nodup ∧
  (s.role_grants.map roleGrantKey).Nodup ∧ (s.grants.map grantKey).Nodup

instance (s : Snap) : Decidable (DistinctKeys s) := by
  unfold DistinctKeys; infer_instance

end Diff

/-!  ## Concrete inputs used by counterexamples and witnesses -/

/-- Valid row-policy params (accepted by the preview builder). -/
def rowPolicyParams : Params :=
  [("name", .str "p1"), ("database", .str "db1"), ("table", .str "t1")]

/-- `create_user` params whose username starts with a digit. -/
def badIdentParams : Params :=
  [("username", .str "9bad"), ("password", .str "x")]

/-- A job request carrying the bad-identifier operation. -/
def badIdentRequest : Executor.CreateJobRequest :=
  ⟨1, 1, 1, "corr-bad-ident", "apply",
   ⟨"ch.local", 8123, "http", "admin", Encryption.encrypt "pw"⟩,
   [⟨0, "create_user", badIdentParams⟩]⟩

/-- A two-step, well-templated apply-mode request. -/
def twoRoleRequest : Executor.CreateJobRequest :=
  ⟨1, 1, 1, "corr-two-roles", "apply",
   ⟨"ch.local", 8123, "http", "admin", Encryption.encrypt "pw"⟩,
   [⟨0, "create_role", [("role_name", .str "r1")]⟩,
    ⟨1, "create_role", [("role_name", .str "r2")]⟩]⟩

/-- An oracle that times out on every call. -/
def timeoutOracle : Nat → Executor.ChResult := fun _ => .transport "timed out"

/-- An oracle whose second call fails with an HTTP 500 body. -/
def http500OnSecondOracle : Nat → Executor.ChResult := fun k =>
  if k = 0 then .ok "" else .httpError "Code: 516. Authentication failed"

/-- An already-stored job. -/
def storedJob : Executor.Job :=
  ⟨42, 9, 3, 7, "corr-X", "apply", "completed", Option.none⟩

/-- A store holding `storedJob`. -/
def storedDb : Executor.ExecDB := ⟨[storedJob], []⟩

/-- A re-submission with `storedJob`'s correlation id and a different body. -/
def resubmitRequest : Executor.CreateJobRequest :=
  ⟨555, 666, 777, "corr-X", "dry_run",
   ⟨"other.host", 9000, "https", "root", Encryption.encrypt "zz"⟩,
   [⟨0, "drop_user", [("username", .str "nobody")]⟩]⟩

/-- A three-step request whose middle step has a template error (missing
`role_name`). -/
def midFailRequest : Executor.CreateJobRequest :=
  ⟨1, 1, 1, "corr-mid-fail", "apply",
   ⟨"ch.local", 8123, "http", "admin", Encryption.encrypt "pw"⟩,
   [⟨0, "create_user", [("username", .str "u1"), ("password", .str "s")]⟩,
    ⟨1, "create_role", [("role_name", .str "")]⟩,
    ⟨2, "grant_role",
      [("role_name", .str "r1"), ("target_type", .str "user"),
       ("target_name", .str "u1")]⟩]⟩

/-- A snapshot whose user `alice` has a direct grant, a grant through role
`analyst`, and a partial revoke covering the role grant. -/
def c7Raw : Rbac.RawSnapshot :=
  { role_grants := [{ user_name := some "alice", granted_role_name := some "analyst" }],
    grants :=
      [{ user_name := some "alice", access_type := some "SELECT",
         database := some "db1", table := some "events" },
       { user_name := some "alice", access_type := some "SELECT",
         database := some "db1", is_partial_revoke := 1 },
       { role_name := some "analyst", access_type := some "INSERT",
         database := some "db2", table := some "raw_rows" }] }

/-- The collected direct grant of `c7Raw`'s user `alice`. -/
def c7Grant : Rbac.EffPriv :=
  ⟨⟨"SELECT", some "db1", some "events", Option.none, false, false⟩,
   "direct", "alice", ["alice"]⟩

/-- A healthy cluster row with populated diagnostics. -/
def healthyCluster : Clusters.Cluster :=
  { name := "prod", host := "ch1.local", port := 8123, protocol := "http",
    username := "admin", password_encrypted := Encryption.encrypt "pw",
    database := some "default", status := "healthy",
    last_tested_at := some 1700000000, latency_ms := some 12,
    server_version := some "24.3.1", current_user_detected := some "admin",
    error_code := Option.none, error_message := Option.none }

/-- A PATCH that sets `host` to its current value. -/
def sameHostPatch : Clusters.ClusterUpdate := { host := some "ch1.local" }

/-- A PATCH that changes `host`. -/
def newHostPatch : Clusters.ClusterUpdate := { host := some "ch2.local" }

/-- A PATCH that only renames the cluster. -/
def renamePatch : Clusters.ClusterUpdate := { name := some "prod-eu" }

/-- Operations for the proposal-assembly witness: a reversible create, a
non-reversible drop, and a reversible grant. -/
def c9Ops : List (String × Params) :=
  [("create_role", [("role_name", .str "r1")]),
   ("drop_quota", [("name", .str "q1")]),
   ("grant_role",
    [("role_name", .str "r1"), ("target_type", .str "user"),
     ("target_name", .str "u1")])]

/-- Snapshot A for the diff witness. -/
def diffSnapA : Diff.Snap :=
  { users := [[("name", .str "alice"), ("host_ip", .arrCons (.str "::/0") .arrNil)]],
    grants := [[("user_name", .str "alice"), ("access_type", .str "SELECT"),
                ("database", .str "db"), ("table", .str "t"), ("column", .null)]] }

/-- Snapshot B for the diff witness: `bob` added, `alice`'s row modified, the
grant replaced by another. -/
def diffSnapB : Diff.Snap :=
  { users := [[("name", .str "alice"), ("host_ip", .arrNil)],
              [("name", .str "bob")]],
    grants := [[("user_name", .str "bob"), ("access_type", .str "SELECT"),
                ("database", .str "db"), ("table", .str "t"), ("column", .null)]] }

/-- The job row committed for `midFailRequest`. -/
def midFailJob : Executor.Job :=
  ⟨1, 1, 1, 1, "corr-mid-fail", "apply", "failed",
   some "Template error at step 1: Missing required parameter: role_name"⟩

/-- The step rows committed for `midFailRequest`. -/
def midFailSteps : List Executor.JobStep :=
  [⟨1, 0, "create_user", "CREATE USER `u1` IDENTIFIED WITH sha256_password BY 's'",
    some "DROP USER IF EXISTS `u1`", "pending", Option.none⟩,
   ⟨1, 1, "create_role", "-- TEMPLATE ERROR: Missing required parameter: role_name",
    Option.none, "error", some "Missing required parameter: role_name"⟩,
   ⟨1, 2, "grant_role", "GRANT `r1` TO `u1`", some "REVOKE `r1` FROM `u1`",
    "skipped", some "Skipped due to earlier error"⟩]

/-- The outcome of `run_job` on `midFailRequest` over an empty store. -/
def midFailOutcome : Executor.RunOutcome :=
  ⟨midFailJob, midFailSteps, ⟨[midFailJob], midFailSteps⟩, [], .templateFailure⟩

/-- The job row committed for `twoRoleRequest` under
`http500OnSecondOracle`. -/
def twoRoleJob : Executor.Job :=
  ⟨1, 1, 1, 1, "corr-two-roles", "apply", "partial_failure",
   some "Failed at step(s): [1]"⟩

/-- The step rows committed for `twoRoleRequest` under
`http500OnSecondOracle`. -/
def twoRoleSteps : List Executor.JobStep :=
  [⟨1, 0, "create_role", "CREATE ROLE `r1`", some "DROP ROLE IF EXISTS `r1`",
    "success", some "OK"⟩,
   ⟨1, 1, "create_role", "CREATE ROLE `r2`", some "DROP ROLE IF EXISTS `r2`",
    "error", some "Code: 516. Authentication failed"⟩]

/-- The outcome of `run_job` on `twoRoleRequest` under
`http500OnSecondOracle` over an empty store. -/
def twoRoleOutcome : Executor.RunOutcome :=
  ⟨twoRoleJob, twoRoleSteps, ⟨[twoRoleJob], twoRoleSteps⟩,
   ["CREATE ROLE `r1`", "CREATE ROLE `r2`"], .classified⟩

/-- The pending steps materialized for `twoRoleRequest`. -/
def twoRolePendingSteps : List Executor.JobStep :=
  [⟨1, 0, "create_role", "CREATE ROLE `r1`", some "DROP ROLE IF EXISTS `r1`",
    "pending", Option.none⟩,
   ⟨1, 1, "create_role", "CREATE ROLE `r2`", some "DROP ROLE IF EXISTS `r2`",
    "pending", Option.none⟩]

/-!  ## Theorems -/

/-- C1: the preview builder accepts `create_row_policy` with valid params and
produces real SQL, yet the executor builder raises `TemplateError: Unknown
operation type` on the same input — the three row-policy operations are
registered in the preview generator table but absent from the executor builder
table, so the claimed preview ⊆ executor inclusion fails on the code. -/
theorem c1_preview_executor_gap :
    SqlGen.previewAccepted "create_row_policy" rowPolicyParams ∧
    SqlGen.generate_sql_preview "create_row_policy" rowPolicyParams =
      .ok ("CREATE ROW POLICY `p1` ON `db1`.`t1` AS PERMISSIVE FOR SELECT USING 1",
           some "DROP ROW POLICY IF EXISTS `p1` ON `db1`.`t1`") ∧
    Templates.build_sql "create_row_policy" rowPolicyParams =
      .error (.templateError "Unknown operation type: create_row_policy") ∧
    (Templates.findBuilder "create_row_policy").isNone = true ∧
    (Templates.findBuilder "alter_row_policy").isNone = true ∧
    (Templates.findBuilder "drop_row_policy").isNone = true ∧
    (SqlGen.findGenerator "create_row_policy").isSome = true ∧
    (SqlGen.findGenerator "alter_row_policy").isSome = true ∧
    (SqlGen.findGenerator "drop_row_policy").isSome = true :=
  ⟨⟨"CREATE ROW POLICY `p1` ON `db1`.`t1` AS PERMISSIVE FOR SELECT USING 1",
    some "DROP ROW POLICY IF EXISTS `p1` ON `db1`.`t1`", by decide, by decide, by decide⟩,
   by decide, by decide, by decide, by decide, by decide, by decide, by decide, by decide⟩

/-- C2: a param that fails the identifier rule makes `quote_identifier` raise
`ValueError` — not `TemplateError` — so `build_sql` propagates a generic
error, and `run_job`, whose build loop catches only `TemplateError`, lets the
exception escape the job instead of recording a `status=error` step. -/
theorem c2_invalid_identifier_escapes :
    Safety.validate_identifier "9bad" = false ∧
    Templates.build_sql "create_user" badIdentParams =
      .error (.valueError "Invalid identifier: '9bad'") ∧
    Executor.run_job badIdentRequest (fun _ => .ok "") ⟨[], []⟩ =
      .error (.uncaughtBuild (.valueError "Invalid identifier: '9bad'")) :=
  ⟨by decide, by decide, by decide⟩

/-- C3 counterexample: a per-step timeout is not contained — the apply loop
catches only `httpx.HTTPStatusError`, so the transport exception propagates
out of `run_job` and no step is recorded as errored or skipped. -/
theorem c3_timeout_escapes_run_job :
    Executor.run_job twoRoleRequest timeoutOracle ⟨[], []⟩ =
      .error (.uncaughtTransport "timed out") := by decide

/-- C5: when a job with the request's `correlation_id` is already stored,
`run_job` returns that job unchanged: no new job row, no new step rows, an
unchanged store, and no cluster I/O — for every request body. -/
theorem c5_idempotent_on_correlation_id
    (req : Executor.CreateJobRequest) (oracle : Nat → Executor.ChResult)
    (db : Executor.ExecDB) (j : Executor.Job)
    (h : db.jobs.find? (fun j' => j'.correlation_id = req.correlation_id) = some j) :
    Executor.run_job req oracle db = .ok ⟨j, [], db, [], .idempotent⟩ := by
  unfold Executor.run_job
  rw [h]

/-- Inversion of `Except.map` at an `ok` result. -/
theorem exceptMap_ok {ε α β : Type} {f : α → β} {x : Except ε α} {b : β}
    (h : x.map f = .ok b) : ∃ a, x = .ok a ∧ f a = b := by
  cases x with
  | ok a =>
      refine ⟨a, rfl, ?_⟩
      simpa [Except.map] using h
  | error e => simp [Except.map] at h

/-- `skipRemaining` marks every materialized step `skipped` and keeps the
operations' order indexes. -/
theorem skipRemaining_ok (jid : Nat) :
    ∀ (ops : List Executor.OperationPayload) (l : List Executor.JobStep),
      Executor.skipRemaining jid ops = .ok l →
      (∀ s ∈ l, s.status = "skipped") ∧
      l.map (fun s => s.step_index) = ops.map (fun o => o.order_index) := by
  intro ops
  induction ops with
  | nil =>
      intro l h
      unfold Executor.skipRemaining at h
      cases h
      exact ⟨by simp, rfl⟩
  | cons op rest ih =>
      intro l h
      unfold Executor.skipRemaining at h
      split at h
      · obtain ⟨l', hl', hle⟩ := exceptMap_ok h
        obtain ⟨h1, h2⟩ := ih l' hl'
        subst hle
        refine ⟨?_, by simp [h2]⟩
        intro s hs
        rcases List.mem_cons.mp hs with rfl | hs
        · rfl
        · exact h1 s hs
      · obtain ⟨l', hl', hle⟩ := exceptMap_ok h
        obtain ⟨h1, h2⟩ := ih l' hl'
        subst hle
        refine ⟨?_, by simp [h2]⟩
        intro s hs
        rcases List.mem_cons.mp hs with rfl | hs
        · rfl
        · exact h1 s hs
      · exact absurd h (by simp)

/-- Shape of the build loop's result: the order indexes are preserved, and the
steps are either all `pending` (no template error) or a `pending` prefix, one
`error` step carrying the failing index, and a `skipped` tail. -/
theorem buildSteps_ok (jid : Nat) :
    ∀ (ops : List Executor.OperationPayload) (l : List Executor.JobStep)
      (e : Option (Nat × String)),
      Executor.buildSteps jid ops = .ok (l, e) →
      l.map (fun s => s.step_index) = ops.map (fun o => o.order_index) ∧
      ((e = Option.none ∧ ∀ s ∈ l, s.status = "pending") ∨
       (∃ km l₁ er l₂, e = some km ∧ l = l₁ ++ er :: l₂ ∧
         (∀ s ∈ l₁, s.status = "pending") ∧ er.status = "error" ∧
         er.step_index = km.1 ∧ (∀ s ∈ l₂, s.status = "skipped"))) := by
  intro ops
  induction ops with
  | nil =>
      intro l e h
      unfold Executor.buildSteps at h
      cases h
      exact ⟨rfl, Or.inl ⟨rfl, by simp⟩⟩
  | cons op rest ih =>
      intro l e h
      unfold Executor.buildSteps at h
      split at h
      · rename_i f c heq
        obtain ⟨⟨l', e'⟩, hl', hle⟩ := exceptMap_ok h
        obtain ⟨hmap, hsh⟩ := ih l' e' hl'
        cases hle
        constructor
        · simpa [Executor.pendingStep] using hmap
        · rcases hsh with ⟨rfl, hall⟩ | ⟨km, l₁, er, l₂, rfl, rfl, h₁, h₂, h₃, h₄⟩
          · refine Or.inl ⟨rfl, ?_⟩
            intro s hs
            rcases List.mem_cons.mp hs with rfl | hs
            · rfl
            · exact hall s hs
          · refine Or.inr ⟨km, Executor.pendingStep jid op f c :: l₁, er, l₂, rfl,
              by simp, ?_, h₂, h₃, h₄⟩
            intro s hs
            rcases List.mem_cons.mp hs with rfl | hs
            · rfl
            · exact h₁ s hs
      · rename_i msg heq
        obtain ⟨skips, hsk, hle⟩ := exceptMap_ok h
        obtain ⟨h1, h2⟩ := skipRemaining_ok jid rest skips hsk
        cases hle
        constructor
        · simp [h2]
        · exact Or.inr ⟨(op.order_index, msg), [],
            ⟨jid, op.order_index, op.operation_type, "-- TEMPLATE ERROR: " ++ msg,
             Option.none, "error", some msg⟩, skips, rfl, rfl, by simp, rfl, rfl, h1⟩
      · exact absurd h (by simp)

/-- Shape of the apply loop's result: indexes are preserved; with the skip
flag raised everything is `skipped`; otherwise the result is a `success`
prefix optionally followed by one `error` step and a `skipped` tail. -/
theorem applyLoop_ok (oracle : Nat → Executor.ChResult) :
    ∀ (steps : List Executor.JobStep) (k : Nat) (failed : Bool)
      (l : List Executor.JobStep) (t : List String),
      Executor.applyLoop oracle k failed steps = .ok (l, t) →
      l.map (fun s => s.step_index) = steps.map (fun s => s.step_index) ∧
      (failed = true → ∀ s ∈ l, s.status = "skipped") ∧
      (failed = false → ∃ l₁ l₂, l = l₁ ++ l₂ ∧ (∀ s ∈ l₁, s.status = "success") ∧
        (l₂ = [] ∨ ∃ er l₃, l₂ = er :: l₃ ∧ er.status = "error" ∧
          ∀ s ∈ l₃, s.status = "skipped")) := by
  intro steps
  induction steps with
  | nil =>
      intro k failed l t h
      unfold Executor.applyLoop at h
      cases h
      exact ⟨rfl, fun _ => by simp, fun _ => ⟨[], [], rfl, by simp, Or.inl rfl⟩⟩
  | cons s rest ih =>
      intro k failed l t h
      unfold Executor.applyLoop at h
      split at h
      · -- failed = true
        obtain ⟨⟨l', t'⟩, hl', hle⟩ := exceptMap_ok h
        obtain ⟨hmap, hskip, _⟩ := ih k true l' t' hl'
        cases hle
        refine ⟨by simpa using hmap, fun _ => ?_, fun hf => ?_⟩
        · intro x hx
          rcases List.mem_cons.mp hx with rfl | hx
          · rfl
          · exact hskip rfl x hx
        · simp_all
      · -- failed = false
        split at h
        · -- oracle k = ok
          rename_i text heq
          obtain ⟨⟨l', t'⟩, hl', hle⟩ := exceptMap_ok h
          obtain ⟨hmap, _, hfree⟩ := ih (k + 1) false l' t' hl'
          cases hle
          refine ⟨by simpa using hmap, fun hf => by simp_all, fun _ => ?_⟩
          obtain ⟨l₁, l₂, rfl, h₁, h₂⟩ := hfree rfl
          let s' : Executor.JobStep :=
            { s with status := "success",
                     result_message :=
                       some (if pyStrip text = "" then "OK" else pyStrip text) }
          refine ⟨s' :: l₁, l₂, by simp [s'], ?_, h₂⟩
          intro x hx
          rcases List.mem_cons.mp hx with rfl | hx
          · rfl
          · exact h₁ x hx
        · -- oracle k = httpError
          obtain ⟨⟨l', t'⟩, hl', hle⟩ := exceptMap_ok h
          obtain ⟨hmap, hskip, _⟩ := ih (k + 1) true l' t' hl'
          cases hle
          refine ⟨by simpa using hmap, fun hf => by simp_all, fun _ => ?_⟩
          exact ⟨[], _ :: l', rfl, by simp, Or.inr ⟨_, l', rfl, rfl, hskip rfl⟩⟩
        · -- oracle k = transport
          exact absurd h (by simp)

/-- Transfer pairwise-sortedness from order indexes to step indexes along an
index-preserving map equality. -/
theorem pairwise_of_map_le {α β : Type} {l : List α} {ops : List β}
    {f : α → Nat} {g : β → Nat}
    (hmap : l.map f = ops.map g)
    (hsort : List.Pairwise (fun a b => g a ≤ g b) ops) :
    List.Pairwise (fun a b => f a ≤ f b) l := by
  have h1 : List.Pairwise (fun a b : Nat => a ≤ b) (ops.map g) :=
    List.pairwise_map.mpr hsort
  rw [← hmap] at h1
  exact List.pairwise_map.mp h1

/-- The sorted operation list is pairwise ascending in `order_index`. -/
theorem sortOps_pairwise (ops : List Executor.OperationPayload) :
    List.Pairwise (fun a b : Executor.OperationPayload => a.order_index ≤ b.order_index)
      (Executor.sortOps ops) :=
  List.sorted_insertionSort Executor.opLe ops

/-- The skip cascade follows from the step-list shape plus sortedness: an
`error` step can only be the head of the tail block, and any step with a
strictly greater index sits in the `skipped` part. -/
theorem cascade_of_shape (l₁ l₂ : List Executor.JobStep)
    (h₁ : ∀ s ∈ l₁, s.status ≠ "error")
    (h₂ : l₂ = [] ∨ ∃ er l₃, l₂ = er :: l₃ ∧ ∀ s ∈ l₃, s.status = "skipped")
    (hsort : List.Pairwise (fun a b : Executor.JobStep => a.step_index ≤ b.step_index)
      (l₁ ++ l₂)) :
    ∀ s ∈ l₁ ++ l₂, s.status = "error" →
    ∀ t ∈ l₁ ++ l₂, s.step_index < t.step_index → t.status = "skipped" := by
  intro s hs hserr t ht hlt
  rcases h₂ with rfl | ⟨er, l₃, rfl, h₃⟩
  · rw [List.append_nil] at hs
    exact absurd hserr (h₁ s hs)
  · have hcross := (List.pairwise_append.mp hsort).2.2
    rcases List.mem_append.mp hs with hs1 | hs2
    · exact absurd hserr (h₁ s hs1)
    · rcases List.mem_cons.mp hs2 with rfl | hs3
      · rcases List.mem_append.mp ht with ht1 | ht2
        · exact absurd hlt (by simpa using hcross t ht1 s (List.mem_cons_self _ _))
        · rcases List.mem_cons.mp ht2 with rfl | ht3
          · omega
          · exact h₃ t ht3
      · rw [h₃ s hs3] at hserr
        exact absurd hserr (by decide)

/-- C4: in every job produced by `run_job` — either mode, including the
template-error path — if a persisted step has `status=error` then every
persisted step with a greater `step_index` has `status=skipped`. -/
theorem c4_error_implies_later_skipped
    (req : Executor.CreateJobRequest) (oracle : Nat → Executor.ChResult)
    (db : Executor.ExecDB) (out : Executor.RunOutcome)
    (h : Executor.run_job req oracle db = .ok out) :
    ∀ s ∈ out.newSteps, s.status = "error" →
    ∀ t ∈ out.newSteps, s.step_index < t.step_index → t.status = "skipped" := by
  unfold Executor.run_job at h
  cases hfind : db.jobs.find? (fun j => j.correlation_id = req.correlation_id) with
  | some j =>
      simp only [hfind] at h
      injection h with h
      subst h
      simp
  | none =>
      simp only [hfind] at h
      cases hdec : Encryption.decrypt req.cluster_config.password_encrypted with
      | error e => simp [hdec] at h
      | ok pw =>
          simp only [hdec] at h
          cases hbs : Executor.buildSteps (db.jobs.length + 1)
              (Executor.sortOps req.operations) with
          | error e => simp [hbs] at h
          | ok p =>
              obtain ⟨steps, km⟩ := p
              cases km with
              | some km' =>
                  simp only [hbs] at h
                  injection h with h
                  subst h
                  obtain ⟨hmap, hsh⟩ := buildSteps_ok _ _ _ _ hbs
                  rcases hsh with ⟨hbad, _⟩ | ⟨km'', l₁, er, l₂, _, heq, hp, he, _, hskip⟩
                  · exact absurd hbad (by simp)
                  · rw [heq] at hmap ⊢
                    exact cascade_of_shape l₁ (er :: l₂)
                      (fun s hs => by rw [hp s hs]; decide)
                      (Or.inr ⟨er, l₂, rfl, hskip⟩)
                      (pairwise_of_map_le hmap (sortOps_pairwise _))
              | none =>
                  simp only [hbs] at h
                  by_cases hmode : req.mode = "dry_run"
                  · rw [if_pos hmode] at h
                    injection h with h
                    subst h
                    intro s hs hserr
                    simp only [List.mem_map] at hs
                    obtain ⟨x, _, rfl⟩ := hs
                    simp at hserr
                  · rw [if_neg hmode] at h
                    cases happly : Executor.applyLoop oracle 0 false steps with
                    | error e => simp [happly] at h
                    | ok pr =>
                        obtain ⟨l, t⟩ := pr
                        simp only [happly] at h
                        injection h with h
                        subst h
                        obtain ⟨hmap₀, _⟩ := buildSteps_ok _ _ _ _ hbs
                        obtain ⟨hmap, _, hfree⟩ := applyLoop_ok oracle _ _ _ _ _ happly
                        obtain ⟨l₁, l₂, heq, h₁, h₂⟩ := hfree rfl
                        rw [heq] at hmap ⊢
                        exact cascade_of_shape l₁ l₂
                          (fun s hs => by rw [h₁ s hs]; decide)
                          (by
                            rcases h₂ with rfl | ⟨er, l₃, rfl, h₃⟩
                            · exact Or.inl rfl
                            · exact Or.inr ⟨er, l₃, rfl, h₃.2⟩)
                          (pairwise_of_map_le (by rw [hmap, hmap₀]) (sortOps_pairwise _))

/-- Witness for C4 at the three-step template-failure job: step 1 errors and
step 2 is skipped. -/
theorem c4_witness :
    Executor.run_job midFailRequest timeoutOracle ⟨[], []⟩ = .ok midFailOutcome ∧
    (∀ s ∈ midFailOutcome.newSteps, s.status = "error" →
      ∀ t ∈ midFailOutcome.newSteps, s.step_index < t.step_index →
        t.status = "skipped") :=
  ⟨by decide,
   c4_error_implies_later_skipped midFailRequest timeoutOracle ⟨[], []⟩
     midFailOutcome (by decide)⟩

/-- The classification block's behaviour over an arbitrary step list. -/
theorem classify_spec (l : List Executor.JobStep) :
    (("error" ∈ l.map (fun s => s.status) ∧ "success" ∈ l.map (fun s => s.status)) →
      Executor.classifyStatus l = "partial_failure") ∧
    (("error" ∈ l.map (fun s => s.status) ∧ "success" ∉ l.map (fun s => s.status)) →
      Executor.classifyStatus l = "failed") ∧
    ("error" ∉ l.map (fun s => s.status) →
      Executor.classifyStatus l = "completed") ∧
    ("error" ∈ l.map (fun s => s.status) →
      Executor.failedStepsError l = some ("Failed at step(s): " ++
        Executor.pyIntListRepr
          ((l.filter (fun s => s.status = "error")).map (fun s => s.step_index)))) ∧
    ("error" ∉ l.map (fun s => s.status) →
      Executor.failedStepsError l = Option.none) := by
  have key : ∀ v : String, (v ∈ l.map (fun s => s.status)) ↔
      (l.any (fun s => s.status = v) = true) := by
    intro v
    rw [List.any_eq_true]
    constructor
    · intro hmem
      obtain ⟨a, ha, hfa⟩ := List.mem_map.mp hmem
      exact ⟨a, ha, by simp [hfa]⟩
    · rintro ⟨a, ha, hfa⟩
      exact List.mem_map.mpr ⟨a, ha, by simpa using hfa⟩
  have herr := key "error"
  have hsucc := key "success"
  cases hE : l.any (fun s => s.status = "error") with
  | false =>
      have hne : "error" ∉ l.map (fun s => s.status) := by
        intro hmem
        rw [herr, hE] at hmem
        exact Bool.noConfusion hmem
      exact ⟨fun hc => absurd hc.1 hne, fun hc => absurd hc.1 hne,
             fun _ => by simp [Executor.classifyStatus, hE],
             fun hc => absurd hc hne,
             fun _ => by simp [Executor.failedStepsError, hE]⟩
  | true =>
      have hmem : "error" ∈ l.map (fun s => s.status) := herr.mpr hE
      cases hS : l.any (fun s => s.status = "success") with
      | false =>
          have hnsucc : "success" ∉ l.map (fun s => s.status) := by
            intro hm
            rw [hsucc, hS] at hm
            exact Bool.noConfusion hm
          exact ⟨fun hc => absurd hc.2 hnsucc,
                 fun _ => by simp [Executor.classifyStatus, hE, hS],
                 fun hc => absurd hmem hc,
                 fun _ => by simp [Executor.failedStepsError, hE],
                 fun hc => absurd hmem hc⟩
      | true =>
          exact ⟨fun _ => by simp [Executor.classifyStatus, hE, hS],
                 fun hc => absurd (hsucc.mpr hS) hc.2,
                 fun hc => absurd hmem hc,
                 fun _ => by simp [Executor.failedStepsError, hE],
                 fun hc => absurd hmem hc⟩

/-- C6: every job that reaches the final classification block (the
`classified` exit of `run_job`) has status `partial_failure` when both a
success and an error step exist, `failed` when an error exists without a
success, and `completed` otherwise; and when an error exists, `job.error`
lists exactly the failing step indexes. -/
theorem c6_final_classification
    (req : Executor.CreateJobRequest) (oracle : Nat → Executor.ChResult)
    (db : Executor.ExecDB) (out : Executor.RunOutcome)
    (h : Executor.run_job req oracle db = .ok out)
    (hexit : out.exitPoint = .classified) :
    (("error" ∈ out.newSteps.map (fun s => s.status) ∧
      "success" ∈ out.newSteps.map (fun s => s.status)) →
      out.job.status = "partial_failure") ∧
    (("error" ∈ out.newSteps.map (fun s => s.status) ∧
      "success" ∉ out.newSteps.map (fun s => s.status)) →
      out.job.status = "failed") ∧
    ("error" ∉ out.newSteps.map (fun s => s.status) →
      out.job.status = "completed") ∧
    ("error" ∈ out.newSteps.map (fun s => s.status) →
      out.job.error = some ("Failed at step(s): " ++
        Executor.pyIntListRepr
          ((out.newSteps.filter (fun s => s.status = "error")).map
            (fun s => s.step_index)))) := by
  unfold Executor.run_job at h
  cases hfind : db.jobs.find? (fun j => j.correlation_id = req.correlation_id) with
  | some j =>
      simp only [hfind] at h
      injection h with h
      subst h
      simp at hexit
  | none =>
      simp only [hfind] at h
      cases hdec : Encryption.decrypt req.cluster_config.password_encrypted with
      | error e => simp [hdec] at h
      | ok pw =>
          simp only [hdec] at h
          cases hbs : Executor.buildSteps (db.jobs.length + 1)
              (Executor.sortOps req.operations) with
          | error e => simp [hbs] at h
          | ok p =>
              obtain ⟨steps, km⟩ := p
              cases km with
              | some km' =>
                  simp only [hbs] at h
                  injection h with h
                  subst h
                  simp at hexit
              | none =>
                  simp only [hbs] at h
                  by_cases hmode : req.mode = "dry_run"
                  · rw [if_pos hmode] at h
                    injection h with h
                    subst h
                    simp at hexit
                  · rw [if_neg hmode] at h
                    cases happly : Executor.applyLoop oracle 0 false steps with
                    | error e => simp [happly] at h
                    | ok pr =>
                        obtain ⟨l, t⟩ := pr
                        simp only [happly] at h
                        injection h with h
                        subst h
                        obtain ⟨ha, hb, hc, hd, _⟩ := classify_spec l
                        exact ⟨ha, hb, hc, hd⟩

/-- Witness for C6 at the two-step apply job whose second cluster call fails
with HTTP 500: status `partial_failure` and `job.error` naming step 1. -/
theorem c6_witness :
    Executor.run_job twoRoleRequest http500OnSecondOracle ⟨[], []⟩ =
      .ok twoRoleOutcome ∧
    twoRoleOutcome.exitPoint = .classified ∧
    twoRoleOutcome.job.status = "partial_failure" ∧
    twoRoleOutcome.job.error = some "Failed at step(s): [1]" :=
  ⟨by decide, by decide,
   (c6_final_classification twoRoleRequest http500OnSecondOracle ⟨[], []⟩
      twoRoleOutcome (by decide) (by decide)).1 (by decide),
   by decide⟩

/-- Inversion of `Except.map` at an `error` result. -/
theorem exceptMap_error {ε α β : Type} {f : α → β} {x : Except ε α} {e : ε}
    (h : x.map f = .error e) : x = .error e := by
  cases x with
  | ok a => simp [Except.map] at h
  | error e' => simpa [Except.map] using h

/-- The apply loop cannot raise when the oracle never reports a transport
error. -/
theorem applyLoop_ne_error (oracle : Nat → Executor.ChResult)
    (htrans : ∀ n m, oracle n ≠ .transport m) :
    ∀ (steps : List Executor.JobStep) (k : Nat) (failed : Bool)
      (e : Executor.RunErr), Executor.applyLoop oracle k failed steps ≠ .error e := by
  intro steps
  induction steps with
  | nil =>
      intro k failed e h
      simp [Executor.applyLoop] at h
  | cons s rest ih =>
      intro k failed e h
      unfold Executor.applyLoop at h
      cases failed with
      | true =>
          rw [if_pos rfl] at h
          exact ih k true e (exceptMap_error h)
      | false =>
          rw [if_neg (by simp)] at h
          cases ho : oracle k with
          | ok text =>
              rw [ho] at h
              exact ih (k + 1) false e (exceptMap_error h)
          | httpError body =>
              rw [ho] at h
              exact ih (k + 1) true e (exceptMap_error h)
          | transport m => exact absurd ho (htrans k m)

/-- The apply loop succeeds when the oracle never reports a transport
error. -/
theorem applyLoop_no_transport (oracle : Nat → Executor.ChResult)
    (htrans : ∀ n m, oracle n ≠ .transport m)
    (steps : List Executor.JobStep) (k : Nat) (failed : Bool) :
    ∃ r, Executor.applyLoop oracle k failed steps = .ok r := by
  cases hres : Executor.applyLoop oracle k failed steps with
  | ok r => exact ⟨r, rfl⟩
  | error e => exact absurd hres (applyLoop_ne_error oracle htrans steps k failed e)

/-- C3 (amended): a per-step cluster failure with HTTP status ≥ 400 is
contained — `run_job` returns normally, the failing step is recorded
`status=error`, every later step is `skipped`, and the job is classified and
committed — provided no call raises a transport error.  Timeouts and
connection errors are *not* contained (see the counterexample): the apply loop
catches only `httpx.HTTPStatusError`. -/
theorem c3_http_error_contained
    (req : Executor.CreateJobRequest) (oracle : Nat → Executor.ChResult)
    (db : Executor.ExecDB)
    (hfresh : db.jobs.find? (fun j => j.correlation_id = req.correlation_id) =
      Option.none)
    (hdec : ∃ pw, Encryption.decrypt req.cluster_config.password_encrypted = .ok pw)
    (hbuild : ∃ steps, Executor.buildSteps (db.jobs.length + 1)
      (Executor.sortOps req.operations) = .ok (steps, Option.none))
    (hmode : req.mode ≠ "dry_run")
    (htrans : ∀ n m, oracle n ≠ .transport m) :
    ∃ out : Executor.RunOutcome,
      Executor.run_job req oracle db = .ok out ∧
      out.exitPoint = .classified ∧
      out.db.jobs = db.jobs ++ [out.job] ∧
      out.db.steps = db.steps ++ out.newSteps ∧
      (∀ s ∈ out.newSteps, s.status = "error" →
        ∀ t ∈ out.newSteps, s.step_index < t.step_index → t.status = "skipped") := by
  obtain ⟨pw, hpw⟩ := hdec
  obtain ⟨steps, hsteps⟩ := hbuild
  obtain ⟨⟨l, t⟩, happly⟩ := applyLoop_no_transport oracle htrans steps 0 false
  refine ⟨⟨⟨db.jobs.length + 1, req.proposal_id, req.cluster_id, req.actor_user_id,
            req.correlation_id, req.mode, Executor.classifyStatus l,
            Executor.failedStepsError l⟩, l,
           ⟨db.jobs ++ [⟨db.jobs.length + 1, req.proposal_id, req.cluster_id,
              req.actor_user_id, req.correlation_id, req.mode,
              Executor.classifyStatus l, Executor.failedStepsError l⟩],
            db.steps ++ l⟩, t, .classified⟩, ?_, rfl, rfl, rfl, ?_⟩
  · unfold Executor.run_job
    simp only [hfresh, hpw, hsteps, if_neg hmode, happly]
  · obtain ⟨hmap₀, _⟩ := buildSteps_ok _ _ _ _ hsteps
    obtain ⟨hmap, _, hfree⟩ := applyLoop_ok oracle _ _ _ _ _ happly
    obtain ⟨l₁, l₂, heq, h₁, h₂⟩ := hfree rfl
    subst heq
    exact cascade_of_shape l₁ l₂
      (fun s hs => by rw [h₁ s hs]; decide)
      (by
        rcases h₂ with rfl | ⟨er, l₃, rfl, h₃⟩
        · exact Or.inl rfl
        · exact Or.inr ⟨er, l₃, rfl, h₃.2⟩)
      (pairwise_of_map_le (by rw [hmap, hmap₀]) (sortOps_pairwise _))

/-- Witness for the amended C3 at the two-step job whose second call returns
HTTP 500. -/
theorem c3_witness :
    (∀ n m, http500OnSecondOracle n ≠ .transport m) ∧
    (∃ out : Executor.RunOutcome,
      Executor.run_job twoRoleRequest http500OnSecondOracle ⟨[], []⟩ = .ok out ∧
      out.exitPoint = .classified ∧
      out.db.jobs = ([] : List Executor.Job) ++ [out.job] ∧
      out.db.steps = ([] : List Executor.JobStep) ++ out.newSteps ∧
      (∀ s ∈ out.newSteps, s.status = "error" →
        ∀ t ∈ out.newSteps, s.step_index < t.step_index → t.status = "skipped")) := by
  have htrans : ∀ n m, http500OnSecondOracle n ≠ .transport m := by
    intro n m h
    unfold http500OnSecondOracle at h
    split at h <;> exact Executor.ChResult.noConfusion h
  exact ⟨htrans,
    c3_http_error_contained twoRoleRequest http500OnSecondOracle ⟨[], []⟩
      (by decide) ⟨"pw", by decide⟩ ⟨twoRolePendingSteps, by decide⟩
      (by decide) htrans⟩

/-- Witness for C5 at a concrete stored job and a differing request body. -/
theorem c5_witness :
    storedDb.jobs.find?
      (fun j' => j'.correlation_id = resubmitRequest.correlation_id) = some storedJob ∧
    Executor.run_job resubmitRequest timeoutOracle storedDb =
      .ok ⟨storedJob, [], storedDb, [], .idempotent⟩ :=
  ⟨rfl, c5_idempotent_on_correlation_id resubmitRequest timeoutOracle storedDb storedJob rfl⟩

/-- `x or None` never produces `some ""`. -/
theorem pyOrNone_ne_empty (v : Option String) : Rbac.pyOrNone v ≠ some "" := by
  unfold Rbac.pyOrNone
  cases v with
  | none => simp
  | some s =>
      by_cases hs : s = ""
      · simp [hs]
      · simp [hs]

/-- Every collected privilege is the normalization of some raw grants row. -/
theorem collected_mkPriv (raw : Rbac.RawSnapshot) (u : String) :
    ∀ p ∈ Rbac.collectedPrivs raw u, ∃ g, p.priv = Rbac.mkPriv g := by
  intro p hp
  unfold Rbac.collectedPrivs at hp
  rcases List.mem_append.mp hp with h1 | h2
  · obtain ⟨q, hq, rfl⟩ := List.mem_map.mp h1
    unfold Rbac.userGrantsOf at hq
    obtain ⟨g, _, rfl⟩ := List.mem_map.mp hq
    exact ⟨g, rfl⟩
  · obtain ⟨ri, _, hmem⟩ := List.mem_flatMap.mp h2
    obtain ⟨q, hq, rfl⟩ := List.mem_map.mp hmem
    unfold Rbac.roleGrantsMapOf at hq
    obtain ⟨g, _, rfl⟩ := List.mem_map.mp hq
    exact ⟨g, rfl⟩

/-- `_scope_covers` returns true exactly when all three per-field guards are
false. -/
theorem scope_covers_eq_true_iff (r g : Rbac.Priv) :
    Rbac.scope_covers r g = true ↔
    ((Rbac.pyTruthyS r.database && (r.database != g.database)) = false ∧
     (Rbac.pyTruthyS r.table && (r.table != g.table)) = false ∧
     (Rbac.pyTruthyS r.column && (r.column != g.column)) = false) := by
  unfold Rbac.scope_covers
  cases h1 : (Rbac.pyTruthyS r.database && (r.database != g.database)) <;>
    cases h2 : (Rbac.pyTruthyS r.table && (r.table != g.table)) <;>
      cases h3 : (Rbac.pyTruthyS r.column && (r.column != g.column)) <;>
        simp [h1, h2, h3]

/-- For a field that is never `some ""`, the per-field guard failing is
exactly the spec's "null or equal" condition. -/
theorem field_false_iff (v w : Option String) (hv : v ≠ some "") :
    ((Rbac.pyTruthyS v && (v != w)) = false) ↔ (v = Option.none ∨ v = w) := by
  cases v with
  | none => simp [Rbac.pyTruthyS]
  | some s =>
      have hs : s ≠ "" := fun h => hv (by rw [h])
      simp [Rbac.pyTruthyS, hs]

/-- On normalized privileges, `_scope_covers` coincides with the spec's
covering rule. -/
theorem scope_covers_iff (r g : Rbac.Priv)
    (h1 : r.database ≠ some "") (h2 : r.table ≠ some "") (h3 : r.column ≠ some "") :
    (Rbac.scope_covers r g = true) ↔ Rbac.specCovers r g := by
  rw [scope_covers_eq_true_iff]
  unfold Rbac.specCovers
  rw [field_false_iff _ _ h1, field_false_iff _ _ h2, field_false_iff _ _ h3]

/-- C7: a collected positive grant is excluded from the effective list iff
some collected partial revoke for the same user has the same `access_type`
and a scope covering the grant's, where covering means each of database,
table and column is null or equal. -/
theorem c7_revoke_suppression_iff (raw : Rbac.RawSnapshot) (u : String)
    (g : Rbac.EffPriv) (hg : g ∈ Rbac.collectedGrants raw u) :
    (g ∉ Rbac.resolve_effective_privileges raw u) ↔
    ∃ r ∈ Rbac.collectedRevokes raw u,
      r.priv.access_type = g.priv.access_type ∧ Rbac.specCovers r.priv g.priv := by
  have noEmpty : ∀ r ∈ Rbac.collectedRevokes raw u,
      r.priv.database ≠ some "" ∧ r.priv.table ≠ some "" ∧ r.priv.column ≠ some "" := by
    intro r hr
    obtain ⟨graw, hgraw⟩ :=
      collected_mkPriv raw u r (List.mem_filter.mp hr).1
    refine ⟨?_, ?_, ?_⟩ <;> rw [hgraw] <;> exact pyOrNone_ne_empty _
  unfold Rbac.resolve_effective_privileges
  constructor
  · intro h
    cases hany : (Rbac.collectedRevokes raw u).any (fun r =>
        r.priv.access_type == g.priv.access_type &&
        Rbac.scope_covers r.priv g.priv) with
    | false =>
        exact absurd (List.mem_filter.mpr ⟨hg, by simp [hany]⟩) h
    | true =>
        obtain ⟨r, hr, hpred⟩ := List.any_eq_true.mp hany
        obtain ⟨hacc, hcov⟩ := Bool.and_eq_true _ _ |>.mp hpred
        obtain ⟨e1, e2, e3⟩ := noEmpty r hr
        exact ⟨r, hr, beq_iff_eq.mp hacc, (scope_covers_iff _ _ e1 e2 e3).mp hcov⟩
  · rintro ⟨r, hr, hacc, hcov⟩ h
    obtain ⟨e1, e2, e3⟩ := noEmpty r hr
    have hany : (Rbac.collectedRevokes raw u).any (fun r =>
        r.priv.access_type == g.priv.access_type &&
        Rbac.scope_covers r.priv g.priv) = true :=
      List.any_eq_true.mpr ⟨r, hr, by
        rw [Bool.and_eq_true]
        exact ⟨beq_iff_eq.mpr hacc, (scope_covers_iff _ _ e1 e2 e3).mpr hcov⟩⟩
    have hkeep := (List.mem_filter.mp h).2
    simp [hany] at hkeep

/-- `resetHealth` sets `never_tested` and clears all diagnostics. -/
theorem resetHealth_spec (c : Clusters.Cluster) :
    (Clusters.resetHealth c).status = "never_tested" ∧
    (Clusters.resetHealth c).last_tested_at = Option.none ∧
    (Clusters.resetHealth c).latency_ms = Option.none ∧
    (Clusters.resetHealth c).server_version = Option.none ∧
    (Clusters.resetHealth c).current_user_detected = Option.none ∧
    (Clusters.resetHealth c).error_code = Option.none ∧
    (Clusters.resetHealth c).error_message = Option.none :=
  ⟨rfl, rfl, rfl, rfl, rfl, rfl, rfl⟩

/-- The `name` iteration touches neither the critical fields, the flag, nor
the health state. -/
theorem stageName_spec (s : Clusters.Cluster × Bool) (u : Option String) :
    (Clusters.stageName s u).1.host = s.1.host ∧
    (Clusters.stageName s u).1.port = s.1.port ∧
    (Clusters.stageName s u).1.protocol = s.1.protocol ∧
    (Clusters.stageName s u).1.username = s.1.username ∧
    (Clusters.stageName s u).2 = s.2 ∧
    Clusters.diagEq (Clusters.stageName s u).1 s.1 := by
  unfold Clusters.stageName Clusters.diagEq
  cases u with
  | none => exact ⟨rfl, rfl, rfl, rfl, rfl, rfl, rfl, rfl, rfl, rfl, rfl, rfl⟩
  | some v => by_cases h : s.1.name = v <;> simp [h]

/-- The `host` iteration only touches `host` and the flag. -/
theorem stageHost_frame (s : Clusters.Cluster × Bool) (u : Option String) :
    (Clusters.stageHost s u).1.port = s.1.port ∧
    (Clusters.stageHost s u).1.protocol = s.1.protocol ∧
    (Clusters.stageHost s u).1.username = s.1.username ∧
    Clusters.diagEq (Clusters.stageHost s u).1 s.1 := by
  unfold Clusters.stageHost Clusters.diagEq
  cases u with
  | none => exact ⟨rfl, rfl, rfl, rfl, rfl, rfl, rfl, rfl, rfl, rfl⟩
  | some v => by_cases h : s.1.host = v <;> simp [h]

/-- The `port` iteration only touches `port` and the flag. -/
theorem stagePort_frame (s : Clusters.Cluster × Bool) (u : Option Nat) :
    (Clusters.stagePort s u).1.protocol = s.1.protocol ∧
    (Clusters.stagePort s u).1.username = s.1.username ∧
    Clusters.diagEq (Clusters.stagePort s u).1 s.1 := by
  unfold Clusters.stagePort Clusters.diagEq
  cases u with
  | none => exact ⟨rfl, rfl, rfl, rfl, rfl, rfl, rfl, rfl, rfl⟩
  | some v => by_cases h : s.1.port = v <;> simp [h]

/-- The `protocol` iteration only touches `protocol` and the flag. -/
theorem stageProtocol_frame (s : Clusters.Cluster × Bool) (u : Option String) :
    (Clusters.stageProtocol s u).1.username = s.1.username ∧
    Clusters.diagEq (Clusters.stageProtocol s u).1 s.1 := by
  unfold Clusters.stageProtocol Clusters.diagEq
  cases u with
  | none => exact ⟨rfl, rfl, rfl, rfl, rfl, rfl, rfl, rfl⟩
  | some v => by_cases h : s.1.protocol = v <;> simp [h]

/-- The `username` iteration only touches `username` and the flag. -/
theorem stageUsername_diag (s : Clusters.Cluster × Bool) (u : Option String) :
    Clusters.diagEq (Clusters.stageUsername s u).1 s.1 := by
  unfold Clusters.stageUsername Clusters.diagEq
  cases u with
  | none => exact ⟨rfl, rfl, rfl, rfl, rfl, rfl, rfl⟩
  | some v => by_cases h : s.1.username = v <;> simp [h]

/-- The `password` iteration only touches the ciphertext and the flag. -/
theorem stagePassword_diag (s : Clusters.Cluster × Bool) (u : Option String) :
    Clusters.diagEq (Clusters.stagePassword s u).1 s.1 := by
  unfold Clusters.stagePassword Clusters.diagEq
  cases u with
  | none => exact ⟨rfl, rfl, rfl, rfl, rfl, rfl, rfl⟩
  | some v => by_cases h : v = "" <;> simp [h]

/-- The `database` iteration touches neither the flag nor the health state. -/
theorem stageDatabase_spec (s : Clusters.Cluster × Bool) (u : Option String) :
    (Clusters.stageDatabase s u).2 = s.2 ∧
    Clusters.diagEq (Clusters.stageDatabase s u).1 s.1 := by
  unfold Clusters.stageDatabase Clusters.diagEq
  cases u with
  | none => exact ⟨rfl, rfl, rfl, rfl, rfl, rfl, rfl, rfl⟩
  | some v => by_cases h : s.1.database = some v <;> simp [h]

/-- A raised flag survives every later iteration. -/
theorem stagePort_mono (s : Clusters.Cluster × Bool) (u : Option Nat)
    (h : s.2 = true) : (Clusters.stagePort s u).2 = true := by
  unfold Clusters.stagePort
  cases u with
  | none => exact h
  | some v => by_cases hc : s.1.port = v <;> simp [hc, h]

/-- A raised flag survives the `protocol` iteration. -/
theorem stageProtocol_mono (s : Clusters.Cluster × Bool) (u : Option String)
    (h : s.2 = true) : (Clusters.stageProtocol s u).2 = true := by
  unfold Clusters.stageProtocol
  cases u with
  | none => exact h
  | some v => by_cases hc : s.1.protocol = v <;> simp [hc, h]

/-- A raised flag survives the `username` iteration. -/
theorem stageUsername_mono (s : Clusters.Cluster × Bool) (u : Option String)
    (h : s.2 = true) : (Clusters.stageUsername s u).2 = true := by
  unfold Clusters.stageUsername
  cases u with
  | none => exact h
  | some v => by_cases hc : s.1.username = v <;> simp [hc, h]

/-- A raised flag survives the `password` iteration. -/
theorem stagePassword_mono (s : Clusters.Cluster × Bool) (u : Option String)
    (h : s.2 = true) : (Clusters.stagePassword s u).2 = true := by
  unfold Clusters.stagePassword
  cases u with
  | none => exact h
  | some v => by_cases hc : v = "" <;> simp [hc, h]

/-- A raised flag survives the `database` iteration. -/
theorem stageDatabase_mono (s : Clusters.Cluster × Bool) (u : Option String)
    (h : s.2 = true) : (Clusters.stageDatabase s u).2 = true := by
  unfold Clusters.stageDatabase
  cases u with
  | none => exact h
  | some v => by_cases hc : s.1.database = some v <;> simp [hc, h]

/-- A differing `host` raises the flag. -/
theorem stageHost_flag (s : Clusters.Cluster × Bool) (v : String)
    (h : s.1.host ≠ v) : (Clusters.stageHost s (some v)).2 = true := by
  unfold Clusters.stageHost
  simp [h]

/-- A differing `port` raises the flag. -/
theorem stagePort_flag (s : Clusters.Cluster × Bool) (v : Nat)
    (h : s.1.port ≠ v) : (Clusters.stagePort s (some v)).2 = true := by
  unfold Clusters.stagePort
  simp [h]

/-- A differing `protocol` raises the flag. -/
theorem stageProtocol_flag (s : Clusters.Cluster × Bool) (v : String)
    (h : s.1.protocol ≠ v) : (Clusters.stageProtocol s (some v)).2 = true := by
  unfold Clusters.stageProtocol
  simp [h]

/-- A differing `username` raises the flag. -/
theorem stageUsername_flag (s : Clusters.Cluster × Bool) (v : String)
    (h : s.1.username ≠ v) : (Clusters.stageUsername s (some v)).2 = true := by
  unfold Clusters.stageUsername
  simp [h]

/-- A truthy `password` raises the flag. -/
theorem stagePassword_flag (s : Clusters.Cluster × Bool) (v : String)
    (h : v ≠ "") : (Clusters.stagePassword s (some v)).2 = true := by
  unfold Clusters.stagePassword
  simp [h]

/-- `diagEq` is transitive. -/
theorem diagEq_trans {a b c : Clusters.Cluster}
    (h1 : Clusters.diagEq a b) (h2 : Clusters.diagEq b c) : Clusters.diagEq a c :=
  ⟨h1.1.trans h2.1, h1.2.1.trans h2.2.1, h1.2.2.1.trans h2.2.2.1,
   h1.2.2.2.1.trans h2.2.2.2.1, h1.2.2.2.2.1.trans h2.2.2.2.2.1,
   h1.2.2.2.2.2.1.trans h2.2.2.2.2.2.1, h1.2.2.2.2.2.2.trans h2.2.2.2.2.2.2⟩

/-- C8 counterexample: a PATCH that sets `host` to its current value touches a
critical field, yet the loop flags only `old_val != value`, so nothing is
reset — the cluster stays `healthy` with its diagnostics intact. -/
theorem c8_same_value_patch_no_reset :
    sameHostPatch.host = some healthyCluster.host ∧
    Clusters.update_cluster healthyCluster sameHostPatch = healthyCluster ∧
    (Clusters.update_cluster healthyCluster sameHostPatch).status = "healthy" ∧
    (Clusters.update_cluster healthyCluster sameHostPatch).last_tested_at ≠
      Option.none := by
  refine ⟨by decide, by decide, by decide, by decide⟩

/-- C8 (amended): a PATCH that *mutates* a critical field — host, port,
protocol or username present with a different value, or a non-empty password —
resets the health status to `never_tested` and clears every diagnostic field;
a PATCH that touches only the non-critical fields (`name`, `database`) leaves
the health status and all diagnostic fields unchanged.  (A PATCH that merely
re-sends a critical field's current value resets nothing; see the
counterexample.) -/
theorem c8_critical_mutation_resets (c : Clusters.Cluster) (u : Clusters.ClusterUpdate) :
    (Clusters.criticalMutation c u →
      (Clusters.update_cluster c u).status = "never_tested" ∧
      (Clusters.update_cluster c u).last_tested_at = Option.none ∧
      (Clusters.update_cluster c u).latency_ms = Option.none ∧
      (Clusters.update_cluster c u).server_version = Option.none ∧
      (Clusters.update_cluster c u).current_user_detected = Option.none ∧
      (Clusters.update_cluster c u).error_code = Option.none ∧
      (Clusters.update_cluster c u).error_message = Option.none) ∧
    (Clusters.nonCriticalOnly u →
      Clusters.diagEq (Clusters.update_cluster c u) c) := by
  constructor
  · intro hcrit
    have hflag :
        (Clusters.stageDatabase
          (Clusters.stagePassword
            (Clusters.stageUsername
              (Clusters.stageProtocol
                (Clusters.stagePort
                  (Clusters.stageHost (Clusters.stageName (c, false) u.name) u.host)
                  u.port)
                u.protocol)
              u.username)
            u.password)
          u.database).2 = true := by
      rcases hcrit with ⟨v, hv, hne⟩ | ⟨v, hv, hne⟩ | ⟨v, hv, hne⟩ | ⟨v, hv, hne⟩ |
        ⟨v, hv, hne⟩
      · -- host differs
        apply stageDatabase_mono
        apply stagePassword_mono
        apply stageUsername_mono
        apply stageProtocol_mono
        apply stagePort_mono
        rw [hv]
        apply stageHost_flag
        rw [(stageName_spec (c, false) u.name).1]
        exact fun hh => hne hh.symm
      · -- port differs
        apply stageDatabase_mono
        apply stagePassword_mono
        apply stageUsername_mono
        apply stageProtocol_mono
        rw [hv]
        apply stagePort_flag
        rw [(stageHost_frame _ u.host).1, (stageName_spec (c, false) u.name).2.1]
        exact fun hh => hne hh.symm
      · -- protocol differs
        apply stageDatabase_mono
        apply stagePassword_mono
        apply stageUsername_mono
        rw [hv]
        apply stageProtocol_flag
        rw [(stagePort_frame _ u.port).1, (stageHost_frame _ u.host).2.1,
            (stageName_spec (c, false) u.name).2.2.1]
        exact fun hh => hne hh.symm
      · -- username differs
        apply stageDatabase_mono
        apply stagePassword_mono
        rw [hv]
        apply stageUsername_flag
        rw [(stageProtocol_frame _ u.protocol).1, (stagePort_frame _ u.port).2.1,
            (stageHost_frame _ u.host).2.2.1,
            (stageName_spec (c, false) u.name).2.2.2.1]
        exact fun hh => hne hh.symm
      · -- non-empty password
        apply stageDatabase_mono
        rw [hv]
        exact stagePassword_flag _ v hne
    simp only [Clusters.update_cluster]
    rw [if_pos hflag]
    exact resetHealth_spec _
  · intro hnc
    obtain ⟨hh, hp, hpr, hu, hpw⟩ := hnc
    have hHostNone : ∀ s, Clusters.stageHost s Option.none = s := fun _ => rfl
    have hPortNone : ∀ s, Clusters.stagePort s Option.none = s := fun _ => rfl
    have hProtoNone : ∀ s, Clusters.stageProtocol s Option.none = s := fun _ => rfl
    have hUserNone : ∀ s, Clusters.stageUsername s Option.none = s := fun _ => rfl
    have hPwNone : ∀ s, Clusters.stagePassword s Option.none = s := fun _ => rfl
    simp only [Clusters.update_cluster, hh, hp, hpr, hu, hpw,
               hHostNone, hPortNone, hProtoNone, hUserNone, hPwNone]
    have hflag :
        (Clusters.stageDatabase (Clusters.stageName (c, false) u.name) u.database).2 =
          false := by
      rw [(stageDatabase_spec _ u.database).1, (stageName_spec (c, false) u.name).2.2.2.2.1]
    rw [if_neg (by rw [hflag]; exact Bool.false_ne_true)]
    exact diagEq_trans (stageDatabase_spec _ u.database).2
      (stageName_spec (c, false) u.name).2.2.2.2.2

/-- Witness for the amended C8: changing `host` resets the health state, and a
pure rename leaves it untouched. -/
theorem c8_witness :
    Clusters.criticalMutation healthyCluster newHostPatch ∧
    (Clusters.update_cluster healthyCluster newHostPatch).status = "never_tested" ∧
    Clusters.nonCriticalOnly renamePatch ∧
    Clusters.diagEq (Clusters.update_cluster healthyCluster renamePatch) healthyCluster :=
  ⟨Or.inl ⟨"ch2.local", rfl, by decide⟩,
   ((c8_critical_mutation_resets healthyCluster newHostPatch).1
     (Or.inl ⟨"ch2.local", rfl, by decide⟩)).1,
   ⟨rfl, rfl, rfl, rfl, rfl⟩,
   (c8_critical_mutation_resets healthyCluster renamePatch).2
     ⟨rfl, rfl, rfl, rfl, rfl⟩⟩

/-- Witness for C7: in `c7Raw`, `alice`'s direct grant on `db1.events` is
suppressed by the partial revoke on all of `db1`. -/
theorem c7_witness :
    c7Grant ∈ Rbac.collectedGrants c7Raw "alice" ∧
    ((c7Grant ∉ Rbac.resolve_effective_privileges c7Raw "alice") ↔
      ∃ r ∈ Rbac.collectedRevokes c7Raw "alice",
        r.priv.access_type = c7Grant.priv.access_type ∧
        Rbac.specCovers r.priv c7Grant.priv) :=
  ⟨by decide, c7_revoke_suppression_iff c7Raw "alice" c7Grant (by decide)⟩

/-- Filtering commutes with reversal. -/
theorem filterMap_rev {α β : Type} (f : α → Option β) (l : List α) :
    l.reverse.filterMap f = (l.filterMap f).reverse := by
  induction l with
  | nil => rfl
  | cons x xs ih =>
      rw [List.reverse_cons, List.filterMap_append]
      cases hfx : f x with
      | none => simp [List.filterMap_cons, hfx, ih]
      | some b => simp [List.filterMap_cons, hfx, ih]

/-- The collection loop succeeds exactly when every preview succeeds, and then
gathers the previews in order and the truthy compensations in order. -/
theorem previewLoop_spec :
    ∀ (ops : List (String × Params)) (sqls comps : List String),
      Proposals.previewLoop ops = .ok (sqls, comps) →
      ∃ rs : List (String × Option String),
        List.Forall₂ (fun (op : String × Params) (r : String × Option String) =>
          SqlGen.generate_sql_preview op.1 op.2 = .ok r) ops rs ∧
        sqls = rs.map Prod.fst ∧
        comps = rs.filterMap (fun r => Proposals.truthyComp r.2) := by
  intro ops
  induction ops with
  | nil =>
      intro sqls comps h
      unfold Proposals.previewLoop at h
      injection h with h
      rw [Prod.mk.injEq] at h
      obtain ⟨h1, h2⟩ := h
      subst h1
      subst h2
      exact ⟨[], List.Forall₂.nil, rfl, rfl⟩
  | cons op rest ih =>
      obtain ⟨t, p⟩ := op
      intro sqls comps h
      unfold Proposals.previewLoop at h
      cases hg : SqlGen.generate_sql_preview t p with
      | error e => rw [hg] at h; exact absurd h (by simp)
      | ok r =>
          rw [hg] at h
          cases hr : Proposals.previewLoop rest with
          | error e => rw [hr] at h; exact absurd h (by simp)
          | ok tail =>
              rw [hr] at h
              injection h with h
              rw [Prod.mk.injEq] at h
              obtain ⟨h1, h2⟩ := h
              subst h1
              subst h2
              obtain ⟨rs, hfa, hs, hc⟩ := ih tail.1 tail.2 (by rw [hr])
              refine ⟨r :: rs, List.Forall₂.cons (by rw [hg]) hfa, by simp [hs], ?_⟩
              rw [List.filterMap_cons, ← hc]
              cases hr2 : r.2 with
              | none => simp [Proposals.truthyComp, hr2]
              | some s =>
                  by_cases hs0 : s = "" <;> simp [Proposals.truthyComp, hr2, hs0]

/-- C9: for every non-empty operations list accepted by `create_proposal`,
the stored `sql_preview` is the newline-join of the per-operation previews in
order, and `compensation_sql` is the newline-join of the compensations taken
in reverse operation order with compensation-less operations omitted (null
when none exists). -/
theorem c9_proposal_preview_join (ops : List (String × Params))
    (res : String × Option String) (_hne : ops ≠ [])
    (h : Proposals.create_proposal_sql ops = .ok res) :
    ∃ rs : List (String × Option String),
      List.Forall₂ (fun (op : String × Params) (r : String × Option String) =>
        SqlGen.generate_sql_preview op.1 op.2 = .ok r) ops rs ∧
      res.1 = String.intercalate "\n" (rs.map Prod.fst) ∧
      res.2 = (if rs.reverse.filterMap (fun r => Proposals.truthyComp r.2) = []
               then Option.none
               else some (String.intercalate "\n"
                 (rs.reverse.filterMap (fun r => Proposals.truthyComp r.2)))) := by
  unfold Proposals.create_proposal_sql at h
  cases hp : Proposals.previewLoop ops with
  | error e => rw [hp] at h; exact absurd h (by simp)
  | ok r =>
      rw [hp] at h
      injection h with h
      subst h
      obtain ⟨rs, hfa, hsqls, hcomps⟩ := previewLoop_spec ops r.1 r.2 (by rw [hp])
      refine ⟨rs, hfa, by rw [hsqls], ?_⟩
      rw [filterMap_rev, hcomps]
      cases hc : rs.filterMap (fun r => Proposals.truthyComp r.2) with
      | nil => simp
      | cons a as => simp

/-- Witness for C9 at a three-operation proposal (reversible create,
non-reversible drop, reversible grant). -/
theorem c9_witness :
    c9Ops ≠ [] ∧
    Proposals.create_proposal_sql c9Ops =
      .ok ("CREATE ROLE `r1`\nDROP QUOTA IF EXISTS `q1`\nGRANT `r1` TO `u1`",
           some "REVOKE `r1` FROM `u1`\nDROP ROLE IF EXISTS `r1`") ∧
    (∃ rs : List (String × Option String),
      List.Forall₂ (fun (op : String × Params) (r : String × Option String) =>
        SqlGen.generate_sql_preview op.1 op.2 = .ok r) c9Ops rs ∧
      ("CREATE ROLE `r1`\nDROP QUOTA IF EXISTS `q1`\nGRANT `r1` TO `u1`",
        some ("REVOKE `r1` FROM `u1`\nDROP ROLE IF EXISTS `r1`")).1 =
        String.intercalate "\n" (rs.map Prod.fst) ∧
      ("CREATE ROLE `r1`\nDROP QUOTA IF EXISTS `q1`\nGRANT `r1` TO `u1`",
        some ("REVOKE `r1` FROM `u1`\nDROP ROLE IF EXISTS `r1`")).2 =
        (if rs.reverse.filterMap (fun r => Proposals.truthyComp r.2) = []
         then Option.none
         else some (String.intercalate "\n"
           (rs.reverse.filterMap (fun r => Proposals.truthyComp r.2))))) :=
  ⟨by simp [c9Ops], by decide,
   c9_proposal_preview_join c9Ops _ (by simp [c9Ops]) (by decide)⟩

/-- `insertKey` only adds the inserted pair. -/
theorem mem_insertKey {K α : Type} [DecidableEq K] :
    ∀ (m : List (K × α)) (k : K) (v : α) (p : K × α),
      p ∈ Diff.insertKey m k v → p = (k, v) ∨ p ∈ m := by
  intro m k v
  induction m with
  | nil =>
      intro p hp
      unfold Diff.insertKey at hp
      exact Or.inl (by simpa using hp)
  | cons q rest ih =>
      intro p hp
      unfold Diff.insertKey at hp
      by_cases hk : q.1 = k
      · rw [if_pos hk] at hp
        rcases List.mem_cons.mp hp with rfl | hp
        · exact Or.inl rfl
        · exact Or.inr (List.mem_cons_of_mem _ hp)
      · rw [if_neg hk] at hp
        rcases List.mem_cons.mp hp with rfl | hp
        · exact Or.inr (List.mem_cons_self _ _)
        · rcases ih p hp with h | h
          · exact Or.inl h
          · exact Or.inr (List.mem_cons_of_mem _ h)

/-- The keys after `insertKey`: unchanged when the key existed, appended
otherwise. -/
theorem insertKey_keys {K α : Type} [DecidableEq K] :
    ∀ (m : List (K × α)) (k : K) (v : α),
      (Diff.insertKey m k v).map Prod.fst =
        if k ∈ m.map Prod.fst then m.map Prod.fst else m.map Prod.fst ++ [k] := by
  intro m k v
  induction m with
  | nil => simp [Diff.insertKey]
  | cons q rest ih =>
      unfold Diff.insertKey
      by_cases hk : q.1 = k
      · rw [if_pos hk]
        have hmem : k ∈ (q :: rest).map Prod.fst := by
          rw [List.map_cons, ← hk]
          exact List.mem_cons_self _ _
        rw [if_pos hmem, List.map_cons, List.map_cons, hk]
      · rw [if_neg hk, List.map_cons, List.map_cons, ih]
        by_cases hmem : k ∈ rest.map Prod.fst
        · rw [if_pos hmem, if_pos (List.mem_cons_of_mem _ hmem)]
        · rw [if_neg hmem, if_neg ?_, List.cons_append]
          intro hc
          rcases List.mem_cons.mp hc with hc | hc
          · exact hk hc.symm
          · exact hmem hc

/-- `insertKey` preserves key nodup-ness. -/
theorem insertKey_nodup {K α : Type} [DecidableEq K] (m : List (K × α)) (k : K)
    (v : α) (h : (m.map Prod.fst).Nodup) :
    ((Diff.insertKey m k v).map Prod.fst).Nodup := by
  rw [insertKey_keys]
  by_cases hmem : k ∈ m.map Prod.fst
  · rw [if_pos hmem]; exact h
  · rw [if_neg hmem]
    rw [List.nodup_append]
    exact ⟨h, List.nodup_singleton k, fun a ha hak => hmem (by
      simp at hak
      exact hak ▸ ha)⟩

/-- Folding `insertKey` preserves key nodup-ness. -/
theorem foldl_insertKey_nodup {K α : Type} [DecidableEq K] (keyf : α → K) :
    ∀ (items : List α) (acc : List (K × α)), (acc.map Prod.fst).Nodup →
      ((items.foldl (fun m i => Diff.insertKey m (keyf i) i) acc).map Prod.fst).Nodup := by
  intro items
  induction items with
  | nil => intro acc h; simpa using h
  | cons x xs ih => intro acc h; exact ih _ (insertKey_nodup acc (keyf x) x h)

/-- A Python dict always has distinct keys. -/
theorem buildMap_keys_nodup {K : Type} [DecidableEq K] (items : List Diff.Item)
    (keyf : Diff.Item → K) : ((Diff.buildMap items keyf).map Prod.fst).Nodup :=
  foldl_insertKey_nodup keyf items [] (by simp)

/-- A stored pair is always found. -/
theorem lookupK_isSome_of_mem {K α : Type} [DecidableEq K] {m : List (K × α)}
    {p : K × α} (hp : p ∈ m) : (Diff.lookupK m p.1).isSome := by
  unfold Diff.lookupK
  cases hf : m.find? (fun kv => kv.1 = p.1) with
  | some q => simp [hf]
  | none =>
      rw [List.find?_eq_none] at hf
      exact absurd (by simp : (fun kv : K × α => decide (kv.1 = p.1)) p = true)
        (by simpa using hf p hp)

/-- Over nodup keys, lookup agrees with membership. -/
theorem lookupK_eq_some_iff {K α : Type} [DecidableEq K] :
    ∀ (m : List (K × α)), (m.map Prod.fst).Nodup → ∀ (k : K) (v : α),
      (Diff.lookupK m k = some v ↔ (k, v) ∈ m) := by
  intro m
  induction m with
  | nil => intro _ k v; simp [Diff.lookupK]
  | cons q rest ih =>
      obtain ⟨qk, qv⟩ := q
      intro hnd k v
      rw [List.map_cons, List.nodup_cons] at hnd
      obtain ⟨hq, hrest⟩ := hnd
      by_cases hk : qk = k
      · subst hk
        have hhead : Diff.lookupK ((qk, qv) :: rest) qk = some qv := by
          simp [Diff.lookupK, List.find?_cons]
        rw [hhead]
        constructor
        · intro h
          injection h with h
          subst h
          exact List.mem_cons_self _ _
        · intro h
          rcases List.mem_cons.mp h with heq | hmem
          · rw [Prod.mk.injEq] at heq
            rw [heq.2]
          · exact absurd (List.mem_map.mpr ⟨(qk, v), hmem, rfl⟩) hq
      · have hstep : Diff.lookupK ((qk, qv) :: rest) k = Diff.lookupK rest k := by
          simp [Diff.lookupK, List.find?_cons, hk]
        rw [hstep, ih hrest k v]
        constructor
        · exact fun h => List.mem_cons_of_mem _ h
        · intro h
          rcases List.mem_cons.mp h with heq | hmem
          · rw [Prod.mk.injEq] at heq
            exact absurd heq.1.symm hk
          · exact hmem

/-- Membership in a `modified` list, characterized through the two maps. -/
theorem mem_modified_char {K : Type} [DecidableEq K]
    (om nm : List (K × Diff.Item)) (hom : (om.map Prod.fst).Nodup)
    (x y : Diff.Item) :
    ((⟨x, y⟩ : Diff.ModPair) ∈ om.filterMap (fun p =>
      match Diff.lookupK nm p.1 with
      | some v =>
          if Diff.serialiseItem p.2 = Diff.serialiseItem v then Option.none
          else some ⟨p.2, v⟩
      | Option.none => Option.none)) ↔
    ∃ k, Diff.lookupK om k = some x ∧ Diff.lookupK nm k = some y ∧
      Diff.serialiseItem x ≠ Diff.serialiseItem y := by
  rw [List.mem_filterMap]
  constructor
  · rintro ⟨p, hp, hf⟩
    cases hl : Diff.lookupK nm p.1 with
    | none => rw [hl] at hf; exact absurd hf (by simp)
    | some v =>
        rw [hl] at hf
        by_cases hs : Diff.serialiseItem p.2 = Diff.serialiseItem v
        · simp [hs] at hf
        · simp only [hs, if_false, reduceIte] at hf
          injection hf with hf
          rw [Diff.ModPair.mk.injEq] at hf
          obtain ⟨h1, h2⟩ := hf
          subst h1
          subst h2
          exact ⟨p.1, (lookupK_eq_some_iff om hom p.1 p.2).mpr hp, hl, hs⟩
  · rintro ⟨k, hx, hy, hne⟩
    refine ⟨(k, x), (lookupK_eq_some_iff om hom k x).mp hx, ?_⟩
    have hyk : Diff.lookupK nm (k, x).1 = some y := hy
    rw [hyk]
    simp [hne]

/-- `_diff_by_key` of a family with itself is empty. -/
theorem diffByKey_refl {K : Type} [DecidableEq K] (items : List Diff.Item)
    (keyf : Diff.Item → K) :
    Diff.diffByKey items items keyf = Diff.emptyFamilyDiff := by
  have hnd := buildMap_keys_nodup items keyf
  have h1 : (Diff.buildMap items keyf).filter
      (fun p => (Diff.lookupK (Diff.buildMap items keyf) p.1).isNone) = [] := by
    rw [List.filter_eq_nil]
    intro p hp
    have hs := lookupK_isSome_of_mem hp
    cases hl : Diff.lookupK (Diff.buildMap items keyf) p.1 with
    | some q => simp [hl]
    | none => rw [hl] at hs; exact absurd hs (by simp)
  have h2 : (Diff.buildMap items keyf).filterMap (fun p =>
      match Diff.lookupK (Diff.buildMap items keyf) p.1 with
      | some v =>
          if Diff.serialiseItem p.2 = Diff.serialiseItem v then Option.none
          else some (⟨p.2, v⟩ : Diff.ModPair)
      | Option.none => Option.none) = [] := by
    rw [List.filterMap_eq_nil]
    intro p hp
    have hl : Diff.lookupK (Diff.buildMap items keyf) p.1 = some p.2 :=
      (lookupK_eq_some_iff _ hnd p.1 p.2).mpr hp
    rw [hl]
    simp
  simp only [Diff.diffByKey, Diff.emptyFamilyDiff, h1, h2, List.map_nil,
             List.length_nil]

/-- Swapping the two snapshots swaps each modified pair. -/
theorem diffByKey_modified_swap {K : Type} [DecidableEq K]
    (A B : List Diff.Item) (keyf : Diff.Item → K) (x y : Diff.Item) :
    ((⟨x, y⟩ : Diff.ModPair) ∈ (Diff.diffByKey A B keyf).modified) ↔
    ((⟨y, x⟩ : Diff.ModPair) ∈ (Diff.diffByKey B A keyf).modified) := by
  show ((⟨x, y⟩ : Diff.ModPair) ∈ (Diff.buildMap A keyf).filterMap (fun p =>
      match Diff.lookupK (Diff.buildMap B keyf) p.1 with
      | some v =>
          if Diff.serialiseItem p.2 = Diff.serialiseItem v then Option.none
          else some ⟨p.2, v⟩
      | Option.none => Option.none)) ↔
    ((⟨y, x⟩ : Diff.ModPair) ∈ (Diff.buildMap B keyf).filterMap (fun p =>
      match Diff.lookupK (Diff.buildMap A keyf) p.1 with
      | some v =>
          if Diff.serialiseItem p.2 = Diff.serialiseItem v then Option.none
          else some ⟨p.2, v⟩
      | Option.none => Option.none))
  rw [mem_modified_char _ _ (buildMap_keys_nodup A keyf),
      mem_modified_char _ _ (buildMap_keys_nodup B keyf)]
  constructor
  · rintro ⟨k, h1, h2, h3⟩
    exact ⟨k, h2, h1, fun hh => h3 hh.symm⟩
  · rintro ⟨k, h1, h2, h3⟩
    exact ⟨k, h2, h1, fun hh => h3 hh.symm⟩

/-- C10: between any two raw snapshots with pairwise-distinct keys per family,
`compute_diff` is dual — one direction's `added` is the other's `removed`
(even as item lists, hence as key sets), and the `modified` pairs swap
old/new — and `compute_diff` of a snapshot with itself is empty in every
family with all counts zero. -/
theorem c10_diff_duality_reflexivity (A B : Diff.Snap)
    (_hA : Diff.DistinctKeys A) (_hB : Diff.DistinctKeys B) :
    ((Diff.compute_diff A B).users.added = (Diff.compute_diff B A).users.removed ∧
     (Diff.compute_diff A B).users.removed = (Diff.compute_diff B A).users.added ∧
     ∀ x y, ((⟨x, y⟩ : Diff.ModPair) ∈ (Diff.compute_diff A B).users.modified ↔
       (⟨y, x⟩ : Diff.ModPair) ∈ (Diff.compute_diff B A).users.modified)) ∧
    ((Diff.compute_diff A B).roles.added = (Diff.compute_diff B A).roles.removed ∧
     (Diff.compute_diff A B).roles.removed = (Diff.compute_diff B A).roles.added ∧
     ∀ x y, ((⟨x, y⟩ : Diff.ModPair) ∈ (Diff.compute_diff A B).roles.modified ↔
       (⟨y, x⟩ : Diff.ModPair) ∈ (Diff.compute_diff B A).roles.modified)) ∧
    ((Diff.compute_diff A B).role_grants.added =
        (Diff.compute_diff B A).role_grants.removed ∧
     (Diff.compute_diff A B).role_grants.removed =
        (Diff.compute_diff B A).role_grants.added ∧
     ∀ x y, ((⟨x, y⟩ : Diff.ModPair) ∈ (Diff.compute_diff A B).role_grants.modified ↔
       (⟨y, x⟩ : Diff.ModPair) ∈ (Diff.compute_diff B A).role_grants.modified)) ∧
    ((Diff.compute_diff A B).grants.added = (Diff.compute_diff B A).grants.removed ∧
     (Diff.compute_diff A B).grants.removed = (Diff.compute_diff B A).grants.added ∧
     ∀ x y, ((⟨x, y⟩ : Diff.ModPair) ∈ (Diff.compute_diff A B).grants.modified ↔
       (⟨y, x⟩ : Diff.ModPair) ∈ (Diff.compute_diff B A).grants.modified)) ∧
    Diff.compute_diff A A =
      ⟨Diff.emptyFamilyDiff, Diff.emptyFamilyDiff,
       Diff.emptyFamilyDiff, Diff.emptyFamilyDiff⟩ := by
  refine ⟨⟨rfl, rfl, fun x y => diffByKey_modified_swap A.users B.users Diff.nameKey x y⟩,
          ⟨rfl, rfl, fun x y => diffByKey_modified_swap A.roles B.roles Diff.nameKey x y⟩,
          ⟨rfl, rfl, fun x y =>
            diffByKey_modified_swap A.role_grants B.role_grants Diff.roleGrantKey x y⟩,
          ⟨rfl, rfl, fun x y =>
            diffByKey_modified_swap A.grants B.grants Diff.grantKey x y⟩, ?_⟩
  show (⟨Diff.diffByKey A.users A.users Diff.nameKey,
         Diff.diffByKey A.roles A.roles Diff.nameKey,
         Diff.diffByKey A.role_grants A.role_grants Diff.roleGrantKey,
         Diff.diffByKey A.grants A.grants Diff.grantKey⟩ : Diff.DiffResult) = _
  rw [diffByKey_refl, diffByKey_refl, diffByKey_refl, diffByKey_refl]

/-- Witness for C10 at two small snapshots: `bob` appears in one direction's
`added` and the other's `removed`, `alice`'s modified row swaps, and the
self-diff is empty. -/
theorem c10_witness :
    (Diff.DistinctKeys diffSnapA ∧ Diff.DistinctKeys diffSnapB) ∧
    ((Diff.compute_diff diffSnapA diffSnapB).users.added =
       (Diff.compute_diff diffSnapB diffSnapA).users.removed ∧
     Diff.compute_diff diffSnapA diffSnapA =
       ⟨Diff.emptyFamilyDiff, Diff.emptyFamilyDiff,
        Diff.emptyFamilyDiff, Diff.emptyFamilyDiff⟩) :=
  ⟨⟨by decide, by decide⟩,
   ⟨(c10_diff_duality_reflexivity diffSnapA diffSnapB (by decide) (by decide)).1.1,
    ((c10_diff_duality_reflexivity diffSnapA diffSnapB
       (by decide) (by decide)).2.2.2.2)⟩⟩
